import Mathlib

set_option autoImplicit false

/-!
Shallow embedding of the LWM window manager core (`src/lwm.cpp`, class `WM`).

The embedding models the in-memory state of the `WM` object together with the
slice of X-server state the handlers read back (per-window geometry, the
`_NET_WM_STATE` fullscreen marker) and the observable calls made to external
collaborators (input focus requests, spawned commands, synthesized expose
events).  Protocol replies that the handlers consult (the focused window, map
states, freshly generated ids) are supplied as event fields, mirroring the
fact that they are answers from the X server.  Window identifiers are `Nat`,
with `0` playing the role of `XCB_NONE`.
-/

namespace LWM

/-- `WM::WindowGeometry`: cached window geometry; `x`/`y` are signed pixel
coordinates (`int`), `width`/`height` unsigned (`uint16_t`). -/
structure WindowGeometry where
  x : Int
  y : Int
  width : Nat
  height : Nat
deriving DecidableEq

/-- `WM::MoveStart`: pending move gesture; `window = 0` (`XCB_NONE`) means no
move operation is pending.  Field defaults mirror the in-class initializers. -/
structure MoveStart where
  window : Nat := 0
  start_x : Int := 0
  start_y : Int := 0
  orig_x : Int := 0
  orig_y : Int := 0
deriving DecidableEq

/-- `WM::ResizeStart`: pending resize gesture; `window = 0` means idle. -/
structure ResizeStart where
  window : Nat := 0
  start_x : Int := 0
  start_y : Int := 0
  start_width : Nat := 0
  start_height : Nat := 0
deriving DecidableEq

/-- The state of the window manager: the member fields of class `WM` that the
event handlers read and write, plus the modelled X-server state (`realGeom`,
`fullscreenMarked`) and collaborator-observable outputs (`lastFocused`,
`spawned`, `redrawsRequested`, `terminated`). -/
structure WMState where
  windowList : List Nat := []
  currentWindowIndex : Nat := 0
  isRunnerActive : Bool := false
  runnerWindow : Nat := 0
  runnerInput : String := ""
  isExitConfirmationActive : Bool := false
  exitConfirmationWindow : Nat := 0
  isHelpActive : Bool := false
  helpWindow : Nat := 0
  geometryCache : List (Nat × WindowGeometry) := []
  originalGeometry : List (Nat × WindowGeometry) := []
  minimizedWindows : List Nat := []
  moveStart : MoveStart := {}
  resizeStart : ResizeStart := {}
  fullscreenMarked : List Nat := []
  realGeom : List (Nat × WindowGeometry) := []
  screenWidth : Int := 0
  screenHeight : Int := 0
  lastFocused : Option Nat := none
  spawned : List String := []
  redrawsRequested : Nat := 0
  terminated : Bool := false
deriving DecidableEq

/-- Lookup in a `std::map<xcb_window_t, WindowGeometry>` modelled as an
association list. -/
def mapFind : List (Nat × WindowGeometry) → Nat → Option WindowGeometry
  | [], _ => none
  | (k, v) :: rest, w => if k = w then some v else mapFind rest w

/-- Insert-or-assign (`operator[]` / assignment) in the modelled map. -/
def mapInsert : List (Nat × WindowGeometry) → Nat → WindowGeometry → List (Nat × WindowGeometry)
  | [], w, g => [(w, g)]
  | (k, v) :: rest, w, g => if k = w then (w, g) :: rest else (k, v) :: mapInsert rest w g

/-- `map::erase(w)` in the modelled map. -/
def mapErase : List (Nat × WindowGeometry) → Nat → List (Nat × WindowGeometry)
  | [], _ => []
  | (k, v) :: rest, w => if k = w then mapErase rest w else (k, v) :: mapErase rest w

/-- The X server's reaction to a configure request changing only position
(`XCB_CONFIG_WINDOW_X | XCB_CONFIG_WINDOW_Y`): update the window's geometry if
the window exists, otherwise the request is discarded with an error. -/
def realSetPos (m : List (Nat × WindowGeometry)) (w : Nat) (x y : Int) :
    List (Nat × WindowGeometry) :=
  match mapFind m w with
  | some g => mapInsert m w { g with x := x, y := y }
  | none => m

/-- Server reaction to a configure request changing only width and height. -/
def realSetSize (m : List (Nat × WindowGeometry)) (w : Nat) (wd ht : Nat) :
    List (Nat × WindowGeometry) :=
  match mapFind m w with
  | some g => mapInsert m w { g with width := wd, height := ht }
  | none => m

/-- Server reaction to a configure request changing the full rectangle. -/
def realSetRect (m : List (Nat × WindowGeometry)) (w : Nat) (x y : Int) (wd ht : Nat) :
    List (Nat × WindowGeometry) :=
  match mapFind m w with
  | some _ => mapInsert m w ⟨x, y, wd, ht⟩
  | none => m

/-- `WM::invalidateGeometryCache`. -/
def invalidateGeometryCache (s : WMState) (w : Nat) : WMState :=
  { s with geometryCache := mapErase s.geometryCache w }

/-- `WM::getWindowGeometry`: cached value if present; otherwise query the
server (`realGeom`), cache the reply, and return it; on a failed query return
the fallback rectangle `(0, 0, 100, 100)` without caching. -/
def getWindowGeometry (s : WMState) (w : Nat) : WindowGeometry × WMState :=
  match mapFind s.geometryCache w with
  | some g => (g, s)
  | none =>
    match mapFind s.realGeom w with
    | none => (⟨0, 0, 100, 100⟩, s)
    | some g => (g, { s with geometryCache := mapInsert s.geometryCache w g })

/-- `WM::focusWindow`: raise, map and focus `w`; no-op for `XCB_NONE`.  Only
the input-focus effect is observable in the model. -/
def focusWindow (s : WMState) (w : Nat) : WMState :=
  if w = 0 then s else { s with lastFocused := some w }

/-- `WM::resetFocus`: focus the most recently registered window, or the root
(modelled as `none`) when the registry is empty. -/
def resetFocus (s : WMState) : WMState :=
  if s.windowList.isEmpty then { s with lastFocused := none }
  else focusWindow s (s.windowList.getLast?.getD 0)

/-- The three pop-up dialogs; `WM::createPopUpWindow` receives the backing
window variable and active flag of one of these by reference. -/
inductive DialogKind
  | runner
  | exitConf
  | help
deriving DecidableEq

/-- Read the active flag passed (by reference) to the popup helpers. -/
def dialogActive (s : WMState) : DialogKind → Bool
  | .runner => s.isRunnerActive
  | .exitConf => s.isExitConfirmationActive
  | .help => s.isHelpActive

/-- Read the backing window variable passed to the popup helpers. -/
def dialogWindow (s : WMState) : DialogKind → Nat
  | .runner => s.runnerWindow
  | .exitConf => s.exitConfirmationWindow
  | .help => s.helpWindow

/-- Write back through the two references held by the popup helpers. -/
def setDialog (s : WMState) : DialogKind → Bool → Nat → WMState
  | .runner, a, w => { s with isRunnerActive := a, runnerWindow := w }
  | .exitConf, a, w => { s with isExitConfirmationActive := a, exitConfirmationWindow := w }
  | .help, a, w => { s with isHelpActive := a, helpWindow := w }

/-- `WM::createPopUpWindow`: guarded by the dialog's own active flag; creates
the centered popup window on the server (`nid` is the id produced by
`xcb_generate_id`), registers it, makes it current, and focuses it.  The
window title only becomes a server property and is not modelled. -/
def createPopUpWindow (s : WMState) (k : DialogKind) (nid : Nat) (width height : Nat) :
    WMState :=
  if dialogActive s k then s
  else
    let x : Int := (s.screenWidth - (width : Int)) / 2
    let y : Int := (s.screenHeight - (height : Int)) / 2
    let s1 := setDialog s k true nid
    let s2 := { s1 with realGeom := mapInsert s1.realGeom nid ⟨x, y, width, height⟩ }
    let s3 := { s2 with
      windowList := s2.windowList ++ [nid],
      currentWindowIndex := s2.windowList.length }
    focusWindow s3 nid

/-- `WM::destroyPopUpWindow`: guarded on the flag and the backing window;
unmaps and destroys the window (its disappearance from the server is
reflected when the resulting destroy notification is dispatched), removes it
from the registry fixing the current index, clears the flag and the backing
variable, and resets focus. -/
def destroyPopUpWindow (s : WMState) (k : DialogKind) : WMState :=
  let win := dialogWindow s k
  if ¬ dialogActive s k ∨ win = 0 then s
  else
    let s1 :=
      if s.windowList.contains win then
        let l := s.windowList.erase win
        { s with
          windowList := l,
          currentWindowIndex := if l.length ≤ s.currentWindowIndex then 0 else s.currentWindowIndex }
      else s
    let s2 := setDialog s1 k false 0
    resetFocus s2

/-- `WM::createExitConfirmationDialog`. -/
def createExitConfirmationDialog (s : WMState) (nid : Nat) : WMState :=
  createPopUpWindow s .exitConf nid 300 100

/-- `WM::destroyExitConfirmationDialog`. -/
def destroyExitConfirmationDialog (s : WMState) : WMState :=
  destroyPopUpWindow s .exitConf

/-- `WM::handleExitConfirmationKeypress`: `XK_y`(121)/`XK_Y`(89) exit the
process; `XK_n`(110)/`XK_Escape`(65307) destroy the dialog; everything else
is ignored.  Note the source does not test `XK_N`(78). -/
def handleExitConfirmationKeypress (s : WMState) (ks : Nat) : WMState :=
  if ks = 121 ∨ ks = 89 then { s with terminated := true }
  else if ks = 110 ∨ ks = 65307 then destroyExitConfirmationDialog s
  else s

/-- `WM::createRunnerDialog` (300×50 per `RUNNER_WIDTH`/`RUNNER_HEIGHT`);
clears the input buffer after the popup call. -/
def createRunnerDialog (s : WMState) (nid : Nat) : WMState :=
  let s1 := createPopUpWindow s .runner nid 300 50
  { s1 with runnerInput := "" }

/-- `WM::destroyRunnerDialog`: destroy the popup, then clear the buffer. -/
def destroyRunnerDialog (s : WMState) : WMState :=
  let s1 := destroyPopUpWindow s .runner
  { s1 with runnerInput := "" }

/-- `WM::createHelpDialog` (400×240). -/
def createHelpDialog (s : WMState) (nid : Nat) : WMState :=
  createPopUpWindow s .help nid 400 240

/-- `WM::destroyHelpDialog`. -/
def destroyHelpDialog (s : WMState) : WMState :=
  destroyPopUpWindow s .help

/-- `WM::executeCommand`: empty commands are dropped; otherwise the command
string is handed to the process-execution collaborator (`fork` + `execl`
of `/bin/sh -c cmd`), recorded here in `spawned`. -/
def executeCommand (s : WMState) (cmd : String) : WMState :=
  if cmd = "" then s else { s with spawned := s.spawned ++ [cmd] }

/-- `WM::redrawRunnerDialog`: synthesize an expose event for the runner
window when it is active and backed by a window. -/
def redrawRunnerDialog (s : WMState) : WMState :=
  if s.isRunnerActive ∧ s.runnerWindow ≠ 0 then
    { s with redrawsRequested := s.redrawsRequested + 1 }
  else s

/-- `WM::handleRunnerInput`: `XK_Escape`(65307) destroys discarding input;
`XK_Return`(65293) executes then destroys; `XK_BackSpace`(65288) pops the
last character and redraws when non-empty; keysyms 32–126 append and
redraw. -/
def handleRunnerInput (s : WMState) (ks : Nat) : WMState :=
  if ks = 65307 then destroyRunnerDialog s
  else if ks = 65293 then destroyRunnerDialog (executeCommand s s.runnerInput)
  else if ks = 65288 then
    if s.runnerInput ≠ "" then
      redrawRunnerDialog { s with runnerInput := s.runnerInput.dropRight 1 }
    else s
  else if 32 ≤ ks ∧ ks ≤ 126 then
    redrawRunnerDialog { s with runnerInput := s.runnerInput.push (Char.ofNat ks) }
  else s

/-- `WM::toggleFullscreen`: no-op for `XCB_NONE`.  Otherwise test whether the
window's `_NET_WM_STATE` property carries the fullscreen atom
(`fullscreenMarked`).  Entering: remember the current geometry in
`m_originalGeometry`, set the property, configure the window to cover the
screen.  Leaving: restore the remembered geometry when present (a missing
entry is tolerated) and erase it, then clear the property.  The geometry
cache is invalidated in both cases. -/
def toggleFullscreen (s : WMState) (w : Nat) : WMState :=
  if w = 0 then s
  else if ¬ s.fullscreenMarked.contains w then
    let p := getWindowGeometry s w
    let s1 := p.2
    let s2 := { s1 with
      originalGeometry := mapInsert s1.originalGeometry w p.1,
      fullscreenMarked :=
        if s1.fullscreenMarked.contains w then s1.fullscreenMarked
        else s1.fullscreenMarked ++ [w],
      realGeom :=
        realSetRect s1.realGeom w 0 0 s1.screenWidth.toNat s1.screenHeight.toNat }
    invalidateGeometryCache s2 w
  else
    let s1 :=
      match mapFind s.originalGeometry w with
      | some g =>
        { s with
          realGeom := realSetRect s.realGeom w g.x g.y g.width g.height,
          originalGeometry := mapErase s.originalGeometry w }
      | none => s
    let s2 := { s1 with fullscreenMarked := s1.fullscreenMarked.filter (fun v => v != w) }
    invalidateGeometryCache s2 w

/-- One step of the loop in `WM::focusNextWindow`, with the remaining
iteration count as fuel (the C++ loop runs at most `m_windowList.size()`
times).  Each iteration advances the current index cyclically, examines that
window's map state through `viewable` (a failed attributes query counts as
not viewable), and focuses the first viewable window.  The second component
counts how many candidates were examined. -/
def focusNextAux (viewable : Nat → Bool) : Nat → WMState → WMState × Nat
  | 0, s => (s, 0)
  | fuel + 1, s =>
    let sz := s.windowList.length
    let idx := (s.currentWindowIndex + 1) % sz
    let s1 := { s with currentWindowIndex := idx }
    let w := s1.windowList.getD idx 0
    if viewable w then (focusWindow s1 w, 1)
    else
      let r := focusNextAux viewable fuel s1
      (r.1, r.2 + 1)

/-- `WM::focusNextWindow`. -/
def focusNextWindow (s : WMState) (viewable : Nat → Bool) : WMState :=
  if s.windowList.isEmpty then s
  else (focusNextAux viewable s.windowList.length s).1

/-- Number of candidates `WM::focusNextWindow` examined. -/
def focusNextExamined (s : WMState) (viewable : Nat → Bool) : Nat :=
  if s.windowList.isEmpty then 0
  else (focusNextAux viewable s.windowList.length s).2

/-- The `XK_m` branch of `WM::handleKeyPress`: minimize the focused window
`foc` unless it is `XCB_NONE` or one of the dialog windows; remove it from
the active list, append it to the minimized list, unmap it, and reset
focus. -/
def minimizeFocused (s : WMState) (foc : Nat) : WMState :=
  if foc ≠ 0 ∧ foc ≠ s.runnerWindow ∧ foc ≠ s.exitConfirmationWindow ∧ foc ≠ s.helpWindow then
    let s1 := { s with
      windowList := s.windowList.erase foc,
      minimizedWindows := s.minimizedWindows ++ [foc] }
    resetFocus s1
  else s

/-- The loop of the `XK_n` branch of `WM::handleKeyPress`: map each window of
the original minimized list and append it to the active list when absent. -/
def restoreLoop (s : WMState) : List Nat → WMState
  | [] => s
  | w :: ws =>
    restoreLoop
      (if s.windowList.contains w then s
       else { s with windowList := s.windowList ++ [w] })
      ws

/-- The `XK_n` branch of `WM::handleKeyPress`: restore all minimized windows,
clear the minimized list, and focus the back of the active list when it is
non-empty. -/
def restoreAllMinimized (s : WMState) : WMState :=
  let s1 := restoreLoop s s.minimizedWindows
  let s2 := { s1 with minimizedWindows := [] }
  if s2.windowList.isEmpty then s2
  else focusWindow s2 (s2.windowList.getLast?.getD 0)

/-- A key-press event as observed by `WM::handleKeyPress`, after the keysym
translation done by `WM::getKeysym`: the keysym, whether `XCB_MOD_MASK_1`
(Alt) is in the modifier state, and the server replies the handler may
request (the focused window from `xcb_get_input_focus`, a fresh id from
`xcb_generate_id` for a popup creation, and the per-window map-state answer
used by `focusNextWindow`). -/
structure KeyEvent where
  ks : Nat
  alt : Bool
  foc : Nat := 0
  newId : Nat := 0
  viewable : Nat → Bool := fun _ => false

/-- The `switch (ks)` of `WM::handleKeyPress`, reached only when no dialog is
active and Alt is held: fullscreen toggle (`XK_f` 102), close (`XK_e` 101,
protocol traffic towards the focused client only), exit dialog (`XK_q` 113),
runner (`XK_r` 114), help (`XK_i` 105), focus cycling (`XK_Tab` 65289),
minimize (`XK_m` 109) and restore (`XK_n` 110). -/
def handleKeyChord (s : WMState) (ev : KeyEvent) : WMState :=
  if ev.ks = 102 then toggleFullscreen s ev.foc
  else if ev.ks = 101 then s
  else if ev.ks = 113 then createExitConfirmationDialog s ev.newId
  else if ev.ks = 114 then createRunnerDialog s ev.newId
  else if ev.ks = 105 then createHelpDialog s ev.newId
  else if ev.ks = 65289 then focusNextWindow s ev.viewable
  else if ev.ks = 109 then minimizeFocused s ev.foc
  else if ev.ks = 110 then restoreAllMinimized s
  else s

/-- `WM::handleKeyPress`: keystrokes are routed exclusively to the active
dialog when one exists; otherwise, with Alt held, the key chord switch
(`handleKeyChord`) runs. -/
def handleKeyPress (s : WMState) (ev : KeyEvent) : WMState :=
  if s.isExitConfirmationActive then handleExitConfirmationKeypress s ev.ks
  else if s.isRunnerActive then handleRunnerInput s ev.ks
  else if s.isHelpActive then
    if ev.ks = 65307 then destroyHelpDialog s else s
  else if ¬ ev.alt then s
  else handleKeyChord s ev

/-- A button-press event as seen by `WM::handleButtonPress`: the event
window, the child under the pointer, the button (`detail`), whether Alt is
held, and the root coordinates. -/
structure BtnEvent where
  eventWin : Nat := 0
  child : Nat := 0
  detail : Nat := 1
  alt : Bool := true
  root_x : Int := 0
  root_y : Int := 0
deriving DecidableEq

/-- `WM::handleButtonPress`: presses on an active dialog's window are
ignored; with Alt held and a concrete child, button 1 arms a move gesture
and button 3 arms a resize gesture, both capturing the child's geometry. -/
def handleButtonPress (s : WMState) (ev : BtnEvent) : WMState :=
  if (s.isExitConfirmationActive ∧ ev.eventWin = s.exitConfirmationWindow)
      ∨ (s.isRunnerActive ∧ ev.eventWin = s.runnerWindow)
      ∨ (s.isHelpActive ∧ ev.eventWin = s.helpWindow) then s
  else if ¬ ev.alt then s
  else if ev.child = 0 then s
  else
    let p := getWindowGeometry s ev.child
    let geom := p.1
    let s1 := p.2
    if ev.detail = 1 then
      { s1 with moveStart :=
        { window := ev.child, start_x := ev.root_x, start_y := ev.root_y,
          orig_x := geom.x, orig_y := geom.y } }
    else if ev.detail = 3 then
      { s1 with resizeStart :=
        { window := ev.child, start_x := ev.root_x, start_y := ev.root_y,
          start_width := geom.width, start_height := geom.height } }
    else s1

/-- The per-axis snap computation inlined in the move branch of
`WM::handleMotionNotify`: first clamp a coordinate within `SNAP_THRESHOLD`
(10) of 0 to 0, then clamp the result so the window's far edge coincides
with the screen edge when it lies within the threshold of it. -/
def snapAxis (raw : Int) (winDim : Int) (screenDim : Int) : Int :=
  let r1 := if raw.natAbs < 10 then 0 else raw
  if (r1 + winDim - screenDim).natAbs < 10 then screenDim - winDim else r1

/-- `WM::handleMotionNotify`: while a move is pending the window is placed at
its original position plus the pointer delta with per-axis edge snapping;
otherwise while a resize is pending the window is resized to the original
size plus the delta floored at 50 (truncated to `uint16_t`).  Both branches
invalidate the cached geometry. -/
def handleMotionNotify (s : WMState) (mx my : Int) : WMState :=
  if s.moveStart.window ≠ 0 then
    let dx := mx - s.moveStart.start_x
    let dy := my - s.moveStart.start_y
    let p := getWindowGeometry s s.moveStart.window
    let winGeom := p.1
    let s1 := p.2
    let newX := snapAxis (s.moveStart.orig_x + dx) (winGeom.width : Int) s1.screenWidth
    let newY := snapAxis (s.moveStart.orig_y + dy) (winGeom.height : Int) s1.screenHeight
    let s2 := { s1 with realGeom := realSetPos s1.realGeom s.moveStart.window newX newY }
    invalidateGeometryCache s2 s.moveStart.window
  else if s.resizeStart.window ≠ 0 then
    let dx := mx - s.resizeStart.start_x
    let dy := my - s.resizeStart.start_y
    let nw := ((max ((s.resizeStart.start_width : Int) + dx) 50).toNat) % 65536
    let nh := ((max ((s.resizeStart.start_height : Int) + dy) 50).toNat) % 65536
    let s2 := { s with realGeom := realSetSize s.realGeom s.resizeStart.window nw nh }
    invalidateGeometryCache s2 s.resizeStart.window
  else s

/-- `WM::handleButtonRelease`: unconditionally clear both gesture slots. -/
def handleButtonRelease (s : WMState) : WMState :=
  { s with moveStart := {}, resizeStart := {} }

/-- `WM::handleMapRequest`: override-redirect windows are mapped untouched;
otherwise the window is mapped, raised, focused, registered (made current)
when absent, and its geometry is queried (populating the cache) for the
synthetic configure notification sent back to the client. -/
def handleMapRequest (s : WMState) (w : Nat) (overrideRedirect : Bool) : WMState :=
  if overrideRedirect then s
  else
    let s1 := focusWindow s w
    let s2 :=
      if s1.windowList.contains w then s1
      else { s1 with
        windowList := s1.windowList ++ [w],
        currentWindowIndex := s1.windowList.length }
    (getWindowGeometry s2 w).2

/-- `WM::handleDestroyNotify`: drop the window from the active list, resetting
the current index to 0 when it points past the end, and invalidate its
cached geometry; the destroyed window also disappears from the server. -/
def handleDestroyNotify (s : WMState) (w : Nat) : WMState :=
  let s1 :=
    if s.windowList.contains w then
      let l := s.windowList.erase w
      { s with
        windowList := l,
        currentWindowIndex := if l.length ≤ s.currentWindowIndex then 0 else s.currentWindowIndex }
    else s
  let s2 := invalidateGeometryCache s1 w
  { s2 with realGeom := mapErase s2.realGeom w }

/-- The events the dispatch loop of `WM::runEventLoop` routes to the handlers
modelled here (`XCB_KEY_PRESS`, `XCB_BUTTON_PRESS`, `XCB_MOTION_NOTIFY`,
`XCB_BUTTON_RELEASE`, `XCB_MAP_REQUEST`, `XCB_DESTROY_NOTIFY`). -/
inductive XEvent
  | key (ev : KeyEvent)
  | button (ev : BtnEvent)
  | motion (mx my : Int)
  | buttonRelease
  | mapReq (w : Nat) (overrideRedirect : Bool)
  | destroyNotify (w : Nat)

/-- Route one event to its handler, as `WM::runEventLoop` does. -/
def dispatchEvent (s : WMState) : XEvent → WMState
  | .key ev => handleKeyPress s ev
  | .button ev => handleButtonPress s ev
  | .motion mx my => handleMotionNotify s mx my
  | .buttonRelease => handleButtonRelease s
  | .mapReq w o => handleMapRequest s w o
  | .destroyNotify w => handleDestroyNotify s w

/-- One iteration of the event loop; once `std::exit` has run no further
event is processed. -/
def stepEvent (s : WMState) (e : XEvent) : WMState :=
  if s.terminated then s else dispatchEvent s e

/-- Run the event loop over a list of delivered events. -/
def runEvents (s : WMState) (evs : List XEvent) : WMState :=
  evs.foldl stepEvent s

/-! ### Invariants and concrete states used by the claims -/

/-- At most one of the three dialogs is active. -/
def atMostOneDialog (s : WMState) : Prop :=
  (s.isRunnerActive = false ∨ s.isExitConfirmationActive = false)
  ∧ (s.isRunnerActive = false ∨ s.isHelpActive = false)
  ∧ (s.isExitConfirmationActive = false ∨ s.isHelpActive = false)

instance (s : WMState) : Decidable (atMostOneDialog s) :=
  inferInstanceAs (Decidable (_ ∧ _ ∧ _))

/-- At most one of the move and resize slots holds a window. -/
def atMostOneGesture (s : WMState) : Prop :=
  s.moveStart.window = 0 ∨ s.resizeStart.window = 0

instance (s : WMState) : Decidable (atMostOneGesture s) :=
  inferInstanceAs (Decidable (s.moveStart.window = 0 ∨ s.resizeStart.window = 0))

/-- Both gesture slots are empty (the controller is idle). -/
def bothGestureIdle (s : WMState) : Bool :=
  (s.moveStart.window == 0) && (s.resizeStart.window == 0)

/-- Recognize button-press events. -/
def isButtonPress : XEvent → Bool
  | .button _ => true
  | _ => false

/-- Along an event sequence, every button press arrives while the gesture
controller is idle (each press is preceded by the matching release of the
previous gesture). -/
def pressesGuarded : WMState → List XEvent → Bool
  | _, [] => true
  | s, e :: es => ((!isButtonPress e) || bothGestureIdle s) && pressesGuarded (stepEvent s e) es

/-- The current index is a valid position in the active sequence, or the
sequence is empty and the index has been reset to 0. -/
def currentIndexOk (s : WMState) : Prop :=
  s.currentWindowIndex < s.windowList.length
  ∨ (s.windowList = [] ∧ s.currentWindowIndex = 0)

instance (s : WMState) : Decidable (currentIndexOk s) :=
  inferInstanceAs (Decidable (_ ∨ _))

/-- The i-th candidate examined by `WM::focusNextWindow`: the window at
cyclic position `currentWindowIndex + 1 + i`. -/
def candAt (s : WMState) (i : Nat) : Nat :=
  s.windowList.getD ((s.currentWindowIndex + 1 + i) % s.windowList.length) 0

/-- A concrete state with two active windows, one minimized window, and an
active Exit-Confirmation dialog, used to exercise the index invariant. -/
def c3State : WMState :=
  { windowList := [7, 10, 20], currentWindowIndex := 1, minimizedWindows := [30],
    exitConfirmationWindow := 7, isExitConfirmationActive := true }

/-- A concrete state whose Exit-Confirmation dialog is active. -/
def c4State : WMState :=
  { isExitConfirmationActive := true, exitConfirmationWindow := 100, windowList := [100] }

/-- A concrete mid-drag state: window 5 of size 1912×500 is being moved,
the drag started at the origin with the window at (0, 0), on a 1920×1080
screen. -/
def c6State : WMState :=
  { windowList := [5], realGeom := [(5, ⟨0, 0, 1912, 500⟩)],
    screenWidth := 1920, screenHeight := 1080, moveStart := { window := 5 } }

/-- A concrete one-window state for the fullscreen round-trip. -/
def c7State : WMState :=
  { windowList := [7], realGeom := [(7, ⟨25, 35, 200, 150⟩)],
    screenWidth := 1920, screenHeight := 1080 }

/-- A concrete three-window registry with the current index at the first
window. -/
def c8State : WMState := { windowList := [10, 20, 30] }

/-- A concrete state with an active Runner dialog and an empty input
buffer. -/
def c10State : WMState :=
  { isRunnerActive := true, runnerWindow := 100, windowList := [100] }


/-! ### Basic lemmas about the modelled `std::map` -/

lemma mapFind_mapInsert_self (m : List (Nat × WindowGeometry)) (w : Nat) (g : WindowGeometry) :
    mapFind (mapInsert m w g) w = some g := by
  induction m with
  | nil => simp [mapInsert, mapFind]
  | cons p rest ih =>
    obtain ⟨k, v⟩ := p
    by_cases h : k = w
    · simp [mapInsert, mapFind, h]
    · simp [mapInsert, mapFind, h, ih]

lemma mapFind_mapInsert_ne (m : List (Nat × WindowGeometry)) (w k : Nat) (g : WindowGeometry)
    (h : k ≠ w) : mapFind (mapInsert m w g) k = mapFind m k := by
  induction m with
  | nil => simp [mapInsert, mapFind, Ne.symm h]
  | cons p rest ih =>
    obtain ⟨a, v⟩ := p
    by_cases h2 : a = w
    · subst h2
      simp [mapInsert, mapFind, Ne.symm h]
    · simp [mapInsert, mapFind, h2, ih]

lemma mapFind_mapErase_self (m : List (Nat × WindowGeometry)) (w : Nat) :
    mapFind (mapErase m w) w = none := by
  induction m with
  | nil => simp [mapErase, mapFind]
  | cons p rest ih =>
    obtain ⟨k, v⟩ := p
    by_cases h : k = w
    · simp [mapErase, h, ih]
    · simp [mapErase, mapFind, h, ih]

lemma mapFind_mapErase_ne (m : List (Nat × WindowGeometry)) (w k : Nat) (h : k ≠ w) :
    mapFind (mapErase m w) k = mapFind m k := by
  induction m with
  | nil => simp [mapErase]
  | cons p rest ih =>
    obtain ⟨a, v⟩ := p
    by_cases h2 : a = w
    · subst h2
      simp [mapErase, mapFind, Ne.symm h, ih]
    · simp [mapErase, mapFind, h2, ih]

lemma mapFind_realSetRect_self (m : List (Nat × WindowGeometry)) (w : Nat) (x y : Int)
    (wd ht : Nat) (g : WindowGeometry) (h : mapFind m w = some g) :
    mapFind (realSetRect m w x y wd ht) w = some ⟨x, y, wd, ht⟩ := by
  simp [realSetRect, h, mapFind_mapInsert_self]

/-! ### Frame lemmas: which fields each helper leaves untouched -/

/-- `WM::getWindowGeometry` can only populate the geometry cache. -/
lemma getWindowGeometry_snd_frame (s : WMState) (w : Nat) :
    (getWindowGeometry s w).2 =
      { s with geometryCache := (getWindowGeometry s w).2.geometryCache } := by
  unfold getWindowGeometry
  cases h1 : mapFind s.geometryCache w
  · cases h2 : mapFind s.realGeom w <;> simp
  · simp

/-- `WM::focusWindow` only records the focus request. -/
lemma focusWindow_frame (s : WMState) (w : Nat) :
    focusWindow s w = { s with lastFocused := (focusWindow s w).lastFocused } := by
  unfold focusWindow
  split <;> simp

/-- `WM::resetFocus` only records a focus request. -/
lemma resetFocus_frame (s : WMState) :
    resetFocus s = { s with lastFocused := (resetFocus s).lastFocused } := by
  unfold resetFocus
  split
  · simp
  · exact focusWindow_frame s _

/-- `WM::toggleFullscreen` only touches the geometry bookkeeping and the
fullscreen property. -/
lemma toggleFullscreen_frame (s : WMState) (w : Nat) :
    toggleFullscreen s w =
      { s with
        geometryCache := (toggleFullscreen s w).geometryCache,
        originalGeometry := (toggleFullscreen s w).originalGeometry,
        fullscreenMarked := (toggleFullscreen s w).fullscreenMarked,
        realGeom := (toggleFullscreen s w).realGeom } := by
  unfold toggleFullscreen
  split
  · simp
  · split
    · dsimp only
      rw [getWindowGeometry_snd_frame s w]
      simp [invalidateGeometryCache]
    · dsimp only
      cases h : mapFind s.originalGeometry w <;>
        simp [h, invalidateGeometryCache]

/-- One step of `WM::focusNextWindow` only moves the index and the focus. -/
lemma focusNextAux_frame (viewable : Nat → Bool) (fuel : Nat) :
    ∀ s : WMState,
      (focusNextAux viewable fuel s).1 =
        { s with
          currentWindowIndex := (focusNextAux viewable fuel s).1.currentWindowIndex,
          lastFocused := (focusNextAux viewable fuel s).1.lastFocused } := by
  induction fuel with
  | zero => intro s; simp [focusNextAux]
  | succ n ih =>
    intro s
    unfold focusNextAux
    dsimp only
    split
    · rw [focusWindow_frame]
    · rw [ih]

/-- `WM::focusNextWindow` only moves the index and the focus. -/
lemma focusNextWindow_frame (s : WMState) (viewable : Nat → Bool) :
    focusNextWindow s viewable =
      { s with
        currentWindowIndex := (focusNextWindow s viewable).currentWindowIndex,
        lastFocused := (focusNextWindow s viewable).lastFocused } := by
  unfold focusNextWindow
  split
  · simp
  · exact focusNextAux_frame viewable _ s

/-- The restore loop only grows the active window list. -/
lemma restoreLoop_frame (ws : List Nat) :
    ∀ s : WMState,
      restoreLoop s ws = { s with windowList := (restoreLoop s ws).windowList } := by
  induction ws with
  | nil => intro s; simp [restoreLoop]
  | cons w rest ih =>
    intro s
    unfold restoreLoop
    split
    · exact ih s
    · rw [ih]

/-- The `XK_n` restore branch touches the window list, the minimized list
and the focus. -/
lemma restoreAllMinimized_frame (s : WMState) :
    restoreAllMinimized s =
      { s with
        windowList := (restoreAllMinimized s).windowList,
        minimizedWindows := (restoreAllMinimized s).minimizedWindows,
        lastFocused := (restoreAllMinimized s).lastFocused } := by
  unfold restoreAllMinimized
  dsimp only
  split
  · rw [restoreLoop_frame]
  · rw [focusWindow_frame, restoreLoop_frame]

/-- The `XK_m` minimize branch touches the two window lists and the focus. -/
lemma minimizeFocused_frame (s : WMState) (foc : Nat) :
    minimizeFocused s foc =
      { s with
        windowList := (minimizeFocused s foc).windowList,
        minimizedWindows := (minimizeFocused s foc).minimizedWindows,
        lastFocused := (minimizeFocused s foc).lastFocused } := by
  unfold minimizeFocused
  dsimp only
  split
  · rw [resetFocus_frame]
  · simp

/-! ### Preservation of the dialog flags and the gesture slots -/

lemma createPopUpWindow_slots (s : WMState) (k : DialogKind) (nid wd ht : Nat) :
    (createPopUpWindow s k nid wd ht).moveStart = s.moveStart
    ∧ (createPopUpWindow s k nid wd ht).resizeStart = s.resizeStart := by
  cases k <;>
    · unfold createPopUpWindow dialogActive setDialog focusWindow
      dsimp only
      split
      · exact ⟨rfl, rfl⟩
      · split <;> exact ⟨rfl, rfl⟩

lemma destroyPopUpWindow_slots (s : WMState) (k : DialogKind) :
    (destroyPopUpWindow s k).moveStart = s.moveStart
    ∧ (destroyPopUpWindow s k).resizeStart = s.resizeStart := by
  cases k <;>
    · unfold destroyPopUpWindow dialogActive dialogWindow setDialog resetFocus focusWindow
      dsimp only
      split
      · exact ⟨rfl, rfl⟩
      · repeat' split
        all_goals exact ⟨rfl, rfl⟩

lemma createRunnerDialog_slots (s : WMState) (nid : Nat) :
    (createRunnerDialog s nid).moveStart = s.moveStart
    ∧ (createRunnerDialog s nid).resizeStart = s.resizeStart := by
  unfold createRunnerDialog
  dsimp only
  exact createPopUpWindow_slots s .runner nid 300 50

lemma destroyRunnerDialog_slots (s : WMState) :
    (destroyRunnerDialog s).moveStart = s.moveStart
    ∧ (destroyRunnerDialog s).resizeStart = s.resizeStart := by
  unfold destroyRunnerDialog
  dsimp only
  exact destroyPopUpWindow_slots s .runner

lemma executeCommand_slots (s : WMState) (cmd : String) :
    (executeCommand s cmd).moveStart = s.moveStart
    ∧ (executeCommand s cmd).resizeStart = s.resizeStart := by
  unfold executeCommand
  split <;> exact ⟨rfl, rfl⟩

lemma redrawRunnerDialog_slots (s : WMState) :
    (redrawRunnerDialog s).moveStart = s.moveStart
    ∧ (redrawRunnerDialog s).resizeStart = s.resizeStart := by
  unfold redrawRunnerDialog
  split <;> exact ⟨rfl, rfl⟩

lemma handleExitConfirmationKeypress_slots (s : WMState) (ks : Nat) :
    (handleExitConfirmationKeypress s ks).moveStart = s.moveStart
    ∧ (handleExitConfirmationKeypress s ks).resizeStart = s.resizeStart := by
  unfold handleExitConfirmationKeypress destroyExitConfirmationDialog
  split
  · exact ⟨rfl, rfl⟩
  · split
    · exact destroyPopUpWindow_slots s .exitConf
    · exact ⟨rfl, rfl⟩

lemma handleRunnerInput_slots (s : WMState) (ks : Nat) :
    (handleRunnerInput s ks).moveStart = s.moveStart
    ∧ (handleRunnerInput s ks).resizeStart = s.resizeStart := by
  unfold handleRunnerInput
  split_ifs
  · exact destroyRunnerDialog_slots s
  · rcases destroyRunnerDialog_slots (executeCommand s s.runnerInput) with ⟨h1, h2⟩
    rcases executeCommand_slots s s.runnerInput with ⟨h3, h4⟩
    exact ⟨h1.trans h3, h2.trans h4⟩
  · rcases redrawRunnerDialog_slots { s with runnerInput := s.runnerInput.dropRight 1 }
      with ⟨h1, h2⟩
    exact ⟨h1, h2⟩
  · exact ⟨rfl, rfl⟩
  · rcases redrawRunnerDialog_slots
      { s with runnerInput := s.runnerInput.push (Char.ofNat ks) } with ⟨h1, h2⟩
    exact ⟨h1, h2⟩
  · exact ⟨rfl, rfl⟩

lemma toggleFullscreen_slots (s : WMState) (w : Nat) :
    (toggleFullscreen s w).moveStart = s.moveStart
    ∧ (toggleFullscreen s w).resizeStart = s.resizeStart := by
  rw [toggleFullscreen_frame]
  exact ⟨rfl, rfl⟩

lemma focusNextWindow_slots (s : WMState) (v : Nat → Bool) :
    (focusNextWindow s v).moveStart = s.moveStart
    ∧ (focusNextWindow s v).resizeStart = s.resizeStart := by
  rw [focusNextWindow_frame]
  exact ⟨rfl, rfl⟩

lemma minimizeFocused_slots (s : WMState) (foc : Nat) :
    (minimizeFocused s foc).moveStart = s.moveStart
    ∧ (minimizeFocused s foc).resizeStart = s.resizeStart := by
  rw [minimizeFocused_frame]
  exact ⟨rfl, rfl⟩

lemma restoreAllMinimized_slots (s : WMState) :
    (restoreAllMinimized s).moveStart = s.moveStart
    ∧ (restoreAllMinimized s).resizeStart = s.resizeStart := by
  rw [restoreAllMinimized_frame]
  exact ⟨rfl, rfl⟩

/-- The key-chord switch never touches the gesture slots. -/
lemma handleKeyChord_slots (s : WMState) (ev : KeyEvent) :
    (handleKeyChord s ev).moveStart = s.moveStart
    ∧ (handleKeyChord s ev).resizeStart = s.resizeStart := by
  unfold handleKeyChord
  repeat' split
  all_goals first
  | exact toggleFullscreen_slots s ev.foc
  | (unfold createExitConfirmationDialog
     exact createPopUpWindow_slots s .exitConf ev.newId 300 100)
  | exact createRunnerDialog_slots s ev.newId
  | (unfold createHelpDialog; exact createPopUpWindow_slots s .help ev.newId 400 240)
  | exact focusNextWindow_slots s ev.viewable
  | exact minimizeFocused_slots s ev.foc
  | exact restoreAllMinimized_slots s
  | exact ⟨rfl, rfl⟩

/-- `WM::handleKeyPress` never touches the gesture slots. -/
lemma handleKeyPress_slots (s : WMState) (ev : KeyEvent) :
    (handleKeyPress s ev).moveStart = s.moveStart
    ∧ (handleKeyPress s ev).resizeStart = s.resizeStart := by
  unfold handleKeyPress
  repeat' split
  all_goals first
  | exact handleExitConfirmationKeypress_slots s ev.ks
  | exact handleRunnerInput_slots s ev.ks
  | (unfold destroyHelpDialog; exact destroyPopUpWindow_slots s .help)
  | exact handleKeyChord_slots s ev
  | exact ⟨rfl, rfl⟩

lemma toggleFullscreen_flags (s : WMState) (w : Nat) :
    (toggleFullscreen s w).isRunnerActive = s.isRunnerActive
    ∧ (toggleFullscreen s w).isExitConfirmationActive = s.isExitConfirmationActive
    ∧ (toggleFullscreen s w).isHelpActive = s.isHelpActive := by
  rw [toggleFullscreen_frame]
  exact ⟨rfl, rfl, rfl⟩

lemma focusNextWindow_flags (s : WMState) (v : Nat → Bool) :
    (focusNextWindow s v).isRunnerActive = s.isRunnerActive
    ∧ (focusNextWindow s v).isExitConfirmationActive = s.isExitConfirmationActive
    ∧ (focusNextWindow s v).isHelpActive = s.isHelpActive := by
  rw [focusNextWindow_frame]
  exact ⟨rfl, rfl, rfl⟩

lemma minimizeFocused_flags (s : WMState) (foc : Nat) :
    (minimizeFocused s foc).isRunnerActive = s.isRunnerActive
    ∧ (minimizeFocused s foc).isExitConfirmationActive = s.isExitConfirmationActive
    ∧ (minimizeFocused s foc).isHelpActive = s.isHelpActive := by
  rw [minimizeFocused_frame]
  exact ⟨rfl, rfl, rfl⟩

lemma restoreAllMinimized_flags (s : WMState) :
    (restoreAllMinimized s).isRunnerActive = s.isRunnerActive
    ∧ (restoreAllMinimized s).isExitConfirmationActive = s.isExitConfirmationActive
    ∧ (restoreAllMinimized s).isHelpActive = s.isHelpActive := by
  rw [restoreAllMinimized_frame]
  exact ⟨rfl, rfl, rfl⟩

lemma handleButtonPress_flags (s : WMState) (ev : BtnEvent) :
    (handleButtonPress s ev).isRunnerActive = s.isRunnerActive
    ∧ (handleButtonPress s ev).isExitConfirmationActive = s.isExitConfirmationActive
    ∧ (handleButtonPress s ev).isHelpActive = s.isHelpActive := by
  unfold handleButtonPress
  dsimp only
  repeat' split
  all_goals first
  | exact ⟨rfl, rfl, rfl⟩
  | (rw [getWindowGeometry_snd_frame]; exact ⟨rfl, rfl, rfl⟩)

lemma handleMotionNotify_flags (s : WMState) (mx my : Int) :
    (handleMotionNotify s mx my).isRunnerActive = s.isRunnerActive
    ∧ (handleMotionNotify s mx my).isExitConfirmationActive = s.isExitConfirmationActive
    ∧ (handleMotionNotify s mx my).isHelpActive = s.isHelpActive := by
  unfold handleMotionNotify invalidateGeometryCache
  dsimp only
  repeat' split
  all_goals first
  | exact ⟨rfl, rfl, rfl⟩
  | (rw [getWindowGeometry_snd_frame]; exact ⟨rfl, rfl, rfl⟩)

lemma handleMapRequest_flags (s : WMState) (w : Nat) (o : Bool) :
    (handleMapRequest s w o).isRunnerActive = s.isRunnerActive
    ∧ (handleMapRequest s w o).isExitConfirmationActive = s.isExitConfirmationActive
    ∧ (handleMapRequest s w o).isHelpActive = s.isHelpActive := by
  unfold handleMapRequest
  dsimp only
  repeat' split
  all_goals first
  | exact ⟨rfl, rfl, rfl⟩
  | (rw [getWindowGeometry_snd_frame, focusWindow_frame]; exact ⟨rfl, rfl, rfl⟩)

lemma handleDestroyNotify_flags (s : WMState) (w : Nat) :
    (handleDestroyNotify s w).isRunnerActive = s.isRunnerActive
    ∧ (handleDestroyNotify s w).isExitConfirmationActive = s.isExitConfirmationActive
    ∧ (handleDestroyNotify s w).isHelpActive = s.isHelpActive := by
  unfold handleDestroyNotify invalidateGeometryCache
  dsimp only
  repeat' split
  all_goals exact ⟨rfl, rfl, rfl⟩

lemma createExitConfirmationDialog_flags (s : WMState) (nid : Nat) :
    (createExitConfirmationDialog s nid).isRunnerActive = s.isRunnerActive
    ∧ (createExitConfirmationDialog s nid).isHelpActive = s.isHelpActive := by
  unfold createExitConfirmationDialog createPopUpWindow dialogActive setDialog focusWindow
  dsimp only
  repeat' split
  all_goals exact ⟨rfl, rfl⟩

lemma createRunnerDialog_flags (s : WMState) (nid : Nat) :
    (createRunnerDialog s nid).isExitConfirmationActive = s.isExitConfirmationActive
    ∧ (createRunnerDialog s nid).isHelpActive = s.isHelpActive := by
  unfold createRunnerDialog createPopUpWindow dialogActive setDialog focusWindow
  dsimp only
  repeat' split
  all_goals exact ⟨rfl, rfl⟩

lemma createHelpDialog_flags (s : WMState) (nid : Nat) :
    (createHelpDialog s nid).isRunnerActive = s.isRunnerActive
    ∧ (createHelpDialog s nid).isExitConfirmationActive = s.isExitConfirmationActive := by
  unfold createHelpDialog createPopUpWindow dialogActive setDialog focusWindow
  dsimp only
  repeat' split
  all_goals exact ⟨rfl, rfl⟩

lemma handleExitConfirmationKeypress_flags (s : WMState) (ks : Nat) :
    (handleExitConfirmationKeypress s ks).isRunnerActive = s.isRunnerActive
    ∧ (handleExitConfirmationKeypress s ks).isHelpActive = s.isHelpActive
    ∧ ((handleExitConfirmationKeypress s ks).isExitConfirmationActive = true →
        s.isExitConfirmationActive = true) := by
  unfold handleExitConfirmationKeypress destroyExitConfirmationDialog destroyPopUpWindow
    dialogActive dialogWindow setDialog resetFocus focusWindow
  dsimp only
  repeat' split
  all_goals first
  | exact ⟨rfl, rfl, fun h => h⟩
  | exact ⟨rfl, rfl, by simp⟩

lemma executeCommand_flags (s : WMState) (cmd : String) :
    (executeCommand s cmd).isRunnerActive = s.isRunnerActive
    ∧ (executeCommand s cmd).isExitConfirmationActive = s.isExitConfirmationActive
    ∧ (executeCommand s cmd).isHelpActive = s.isHelpActive := by
  unfold executeCommand
  split <;> exact ⟨rfl, rfl, rfl⟩

lemma redrawRunnerDialog_flags (s : WMState) :
    (redrawRunnerDialog s).isRunnerActive = s.isRunnerActive
    ∧ (redrawRunnerDialog s).isExitConfirmationActive = s.isExitConfirmationActive
    ∧ (redrawRunnerDialog s).isHelpActive = s.isHelpActive := by
  unfold redrawRunnerDialog
  split <;> exact ⟨rfl, rfl, rfl⟩

lemma destroyRunnerDialog_flags (s : WMState) :
    (destroyRunnerDialog s).isExitConfirmationActive = s.isExitConfirmationActive
    ∧ (destroyRunnerDialog s).isHelpActive = s.isHelpActive
    ∧ ((destroyRunnerDialog s).isRunnerActive = true → s.isRunnerActive = true) := by
  unfold destroyRunnerDialog destroyPopUpWindow dialogActive dialogWindow setDialog
    resetFocus focusWindow
  dsimp only
  repeat' split
  all_goals first
  | exact ⟨rfl, rfl, fun h => h⟩
  | exact ⟨rfl, rfl, by simp⟩

lemma handleRunnerInput_flags (s : WMState) (ks : Nat) :
    (handleRunnerInput s ks).isExitConfirmationActive = s.isExitConfirmationActive
    ∧ (handleRunnerInput s ks).isHelpActive = s.isHelpActive
    ∧ ((handleRunnerInput s ks).isRunnerActive = true → s.isRunnerActive = true) := by
  unfold handleRunnerInput
  split_ifs
  · exact destroyRunnerDialog_flags s
  · rcases destroyRunnerDialog_flags (executeCommand s s.runnerInput) with ⟨f1, f2, f3⟩
    rcases executeCommand_flags s s.runnerInput with ⟨g1, g2, g3⟩
    exact ⟨f1.trans g2, f2.trans g3, fun h => g1.symm.trans (f3 h)⟩
  · rcases redrawRunnerDialog_flags { s with runnerInput := s.runnerInput.dropRight 1 }
      with ⟨r1, r2, r3⟩
    exact ⟨r2, r3, fun h => r1.symm.trans h⟩
  · exact ⟨rfl, rfl, fun h => h⟩
  · rcases redrawRunnerDialog_flags
      { s with runnerInput := s.runnerInput.push (Char.ofNat ks) } with ⟨r1, r2, r3⟩
    exact ⟨r2, r3, fun h => r1.symm.trans h⟩
  · exact ⟨rfl, rfl, fun h => h⟩

lemma destroyHelpDialog_flags (s : WMState) :
    (destroyHelpDialog s).isRunnerActive = s.isRunnerActive
    ∧ (destroyHelpDialog s).isExitConfirmationActive = s.isExitConfirmationActive
    ∧ ((destroyHelpDialog s).isHelpActive = true → s.isHelpActive = true) := by
  unfold destroyHelpDialog destroyPopUpWindow dialogActive dialogWindow setDialog
    resetFocus focusWindow
  dsimp only
  repeat' split
  all_goals first
  | exact ⟨rfl, rfl, fun h => h⟩
  | exact ⟨rfl, rfl, by simp⟩

/-! ### The dialog-exclusivity invariant -/

lemma atMostOneDialog_congr {s t : WMState}
    (h1 : t.isRunnerActive = s.isRunnerActive)
    (h2 : t.isExitConfirmationActive = s.isExitConfirmationActive)
    (h3 : t.isHelpActive = s.isHelpActive)
    (h : atMostOneDialog s) : atMostOneDialog t := by
  unfold atMostOneDialog at h ⊢
  rw [h1, h2, h3]
  exact h

lemma atMostOneDialog_of_rh {t : WMState} (h1 : t.isRunnerActive = false)
    (h2 : t.isHelpActive = false) : atMostOneDialog t :=
  ⟨Or.inl h1, Or.inl h1, Or.inr h2⟩

lemma atMostOneDialog_of_eh {t : WMState} (h1 : t.isExitConfirmationActive = false)
    (h2 : t.isHelpActive = false) : atMostOneDialog t :=
  ⟨Or.inr h1, Or.inr h2, Or.inl h1⟩

lemma atMostOneDialog_of_re {t : WMState} (h1 : t.isRunnerActive = false)
    (h2 : t.isExitConfirmationActive = false) : atMostOneDialog t :=
  ⟨Or.inl h1, Or.inl h1, Or.inl h2⟩

/-- The key-chord switch, which is where all dialog create requests in the
program originate, keeps dialog exclusivity: it only runs when no dialog is
active, and opens exactly one dialog. -/
lemma handleKeyChord_atMostOne (s : WMState) (ev : KeyEvent)
    (hR : s.isRunnerActive = false) (hE : s.isExitConfirmationActive = false)
    (hH : s.isHelpActive = false) :
    atMostOneDialog (handleKeyChord s ev) := by
  unfold handleKeyChord
  repeat' split
  all_goals first
  | exact atMostOneDialog_of_rh ((toggleFullscreen_flags s ev.foc).1.trans hR)
      ((toggleFullscreen_flags s ev.foc).2.2.trans hH)
  | exact atMostOneDialog_of_rh ((createExitConfirmationDialog_flags s ev.newId).1.trans hR)
      ((createExitConfirmationDialog_flags s ev.newId).2.trans hH)
  | exact atMostOneDialog_of_eh ((createRunnerDialog_flags s ev.newId).1.trans hE)
      ((createRunnerDialog_flags s ev.newId).2.trans hH)
  | exact atMostOneDialog_of_re ((createHelpDialog_flags s ev.newId).1.trans hR)
      ((createHelpDialog_flags s ev.newId).2.trans hE)
  | exact atMostOneDialog_of_rh ((focusNextWindow_flags s ev.viewable).1.trans hR)
      ((focusNextWindow_flags s ev.viewable).2.2.trans hH)
  | exact atMostOneDialog_of_rh ((minimizeFocused_flags s ev.foc).1.trans hR)
      ((minimizeFocused_flags s ev.foc).2.2.trans hH)
  | exact atMostOneDialog_of_rh ((restoreAllMinimized_flags s).1.trans hR)
      ((restoreAllMinimized_flags s).2.2.trans hH)
  | exact atMostOneDialog_of_rh hR hH

lemma handleKeyPress_atMostOne (s : WMState) (ev : KeyEvent)
    (h : atMostOneDialog s) : atMostOneDialog (handleKeyPress s ev) := by
  unfold handleKeyPress
  split
  · rcases handleExitConfirmationKeypress_flags s ev.ks with ⟨f1, f2, f3⟩
    rcases Bool.eq_false_or_eq_true
        ((handleExitConfirmationKeypress s ev.ks).isExitConfirmationActive) with hX | hX
    case inr =>
      refine ⟨Or.inr hX, ?_, Or.inl hX⟩
      rcases h.2.1 with h4 | h4
      · exact Or.inl (f1.trans h4)
      · exact Or.inr (f2.trans h4)
    case inl =>
      have hsE := f3 hX
      have hsR : s.isRunnerActive = false := by
        rcases h.1 with h4 | h4
        · exact h4
        · simp [h4] at hsE
      have hsH : s.isHelpActive = false := by
        rcases h.2.2 with h4 | h4
        · simp [h4] at hsE
        · exact h4
      exact atMostOneDialog_of_rh (f1.trans hsR) (f2.trans hsH)
  · split
    · rcases handleRunnerInput_flags s ev.ks with ⟨f1, f2, f3⟩
      rcases Bool.eq_false_or_eq_true
          ((handleRunnerInput s ev.ks).isRunnerActive) with hX | hX
      case inr =>
        refine ⟨Or.inl hX, Or.inl hX, ?_⟩
        rcases h.2.2 with h4 | h4
        · exact Or.inl (f1.trans h4)
        · exact Or.inr (f2.trans h4)
      case inl =>
        have hsR := f3 hX
        have hsE : s.isExitConfirmationActive = false := by
          rcases h.1 with h4 | h4
          · simp [h4] at hsR
          · exact h4
        have hsH : s.isHelpActive = false := by
          rcases h.2.1 with h4 | h4
          · simp [h4] at hsR
          · exact h4
        exact atMostOneDialog_of_eh (f1.trans hsE) (f2.trans hsH)
    · split
      · split
        · rcases destroyHelpDialog_flags s with ⟨f1, f2, f3⟩
          rcases Bool.eq_false_or_eq_true ((destroyHelpDialog s).isHelpActive) with hX | hX
          case inr =>
            refine ⟨?_, Or.inr hX, Or.inr hX⟩
            rcases h.1 with h4 | h4
            · exact Or.inl (f1.trans h4)
            · exact Or.inr (f2.trans h4)
          case inl =>
            have hsH := f3 hX
            have hsR : s.isRunnerActive = false := by
              rcases h.2.1 with h4 | h4
              · exact h4
              · simp [h4] at hsH
            have hsE : s.isExitConfirmationActive = false := by
              rcases h.2.2 with h4 | h4
              · exact h4
              · simp [h4] at hsH
            exact atMostOneDialog_of_re (f1.trans hsR) (f2.trans hsE)
        · exact h
      · split
        · exact h
        · rename_i hEx hRu hHe hAl
          simp only [Bool.not_eq_true] at hEx hRu hHe
          exact handleKeyChord_atMostOne s ev hRu hEx hHe

lemma stepEvent_atMostOne (s : WMState) (e : XEvent)
    (h : atMostOneDialog s) : atMostOneDialog (stepEvent s e) := by
  unfold stepEvent
  split
  · exact h
  · cases e with
    | key ev => exact handleKeyPress_atMostOne s ev h
    | button ev =>
      rcases handleButtonPress_flags s ev with ⟨f1, f2, f3⟩
      exact atMostOneDialog_congr f1 f2 f3 h
    | motion mx my =>
      rcases handleMotionNotify_flags s mx my with ⟨f1, f2, f3⟩
      exact atMostOneDialog_congr f1 f2 f3 h
    | buttonRelease => exact h
    | mapReq w o =>
      rcases handleMapRequest_flags s w o with ⟨f1, f2, f3⟩
      exact atMostOneDialog_congr f1 f2 f3 h
    | destroyNotify w =>
      rcases handleDestroyNotify_flags s w with ⟨f1, f2, f3⟩
      exact atMostOneDialog_congr f1 f2 f3 h

lemma runEvents_atMostOne (evs : List XEvent) :
    ∀ s : WMState, atMostOneDialog s → atMostOneDialog (runEvents s evs) := by
  induction evs with
  | nil => intro s h; exact h
  | cons e rest ih =>
    intro s h
    exact ih (stepEvent s e) (stepEvent_atMostOne s e h)

/-! ### The gesture-exclusivity invariant -/

lemma atMostOneGesture_congr {s t : WMState} (h1 : t.moveStart = s.moveStart)
    (h2 : t.resizeStart = s.resizeStart) (h : atMostOneGesture s) : atMostOneGesture t := by
  unfold atMostOneGesture at h ⊢
  rw [h1, h2]
  exact h

lemma handleButtonPress_atMostOne (s : WMState) (ev : BtnEvent)
    (h : bothGestureIdle s = true) : atMostOneGesture (handleButtonPress s ev) := by
  have h2 : s.moveStart.window = 0 ∧ s.resizeStart.window = 0 := by
    unfold bothGestureIdle at h
    simp only [Bool.and_eq_true, beq_iff_eq] at h
    exact h
  unfold handleButtonPress atMostOneGesture
  dsimp only
  repeat' split
  all_goals first
  | exact Or.inl h2.1
  | (rw [getWindowGeometry_snd_frame]; first | exact Or.inr h2.2 | exact Or.inl h2.1)

lemma handleMotionNotify_slots (s : WMState) (mx my : Int) :
    (handleMotionNotify s mx my).moveStart = s.moveStart
    ∧ (handleMotionNotify s mx my).resizeStart = s.resizeStart := by
  unfold handleMotionNotify invalidateGeometryCache
  dsimp only
  repeat' split
  all_goals first
  | exact ⟨rfl, rfl⟩
  | (rw [getWindowGeometry_snd_frame]; exact ⟨rfl, rfl⟩)

lemma handleMapRequest_slots (s : WMState) (w : Nat) (o : Bool) :
    (handleMapRequest s w o).moveStart = s.moveStart
    ∧ (handleMapRequest s w o).resizeStart = s.resizeStart := by
  unfold handleMapRequest
  dsimp only
  repeat' split
  all_goals first
  | exact ⟨rfl, rfl⟩
  | (rw [getWindowGeometry_snd_frame, focusWindow_frame]; exact ⟨rfl, rfl⟩)

lemma handleDestroyNotify_slots (s : WMState) (w : Nat) :
    (handleDestroyNotify s w).moveStart = s.moveStart
    ∧ (handleDestroyNotify s w).resizeStart = s.resizeStart := by
  unfold handleDestroyNotify invalidateGeometryCache
  dsimp only
  repeat' split
  all_goals exact ⟨rfl, rfl⟩

lemma stepEvent_gesture (s : WMState) (e : XEvent) (h : atMostOneGesture s)
    (hg : isButtonPress e = false ∨ bothGestureIdle s = true) :
    atMostOneGesture (stepEvent s e) := by
  unfold stepEvent
  split
  · exact h
  · cases e with
    | key ev =>
      rcases handleKeyPress_slots s ev with ⟨f1, f2⟩
      exact atMostOneGesture_congr f1 f2 h
    | button ev =>
      rcases hg with hg | hg
      · simp [isButtonPress] at hg
      · exact handleButtonPress_atMostOne s ev hg
    | motion mx my =>
      rcases handleMotionNotify_slots s mx my with ⟨f1, f2⟩
      exact atMostOneGesture_congr f1 f2 h
    | buttonRelease => exact Or.inl rfl
    | mapReq w o =>
      rcases handleMapRequest_slots s w o with ⟨f1, f2⟩
      exact atMostOneGesture_congr f1 f2 h
    | destroyNotify w =>
      rcases handleDestroyNotify_slots s w with ⟨f1, f2⟩
      exact atMostOneGesture_congr f1 f2 h

lemma runEvents_gesture (evs : List XEvent) :
    ∀ s : WMState, atMostOneGesture s → pressesGuarded s evs = true →
      atMostOneGesture (runEvents s evs) := by
  induction evs with
  | nil => intro s h _; exact h
  | cons e rest ih =>
    intro s h hg
    unfold pressesGuarded at hg
    rw [Bool.and_eq_true] at hg
    obtain ⟨hg1, hg2⟩ := hg
    refine ih (stepEvent s e) (stepEvent_gesture s e h ?_) hg2
    rcases Bool.or_eq_true_iff.mp hg1 with hg1 | hg1
    · exact Or.inl (by simpa using hg1)
    · exact Or.inr hg1

/-! ### The current-index invariant -/

lemma currentIndexOk_congr {s t : WMState} (h1 : t.windowList = s.windowList)
    (h2 : t.currentWindowIndex = s.currentWindowIndex) (h : currentIndexOk s) :
    currentIndexOk t := by
  unfold currentIndexOk at h ⊢
  rw [h1, h2]
  exact h

lemma getWindowGeometry_snd_windowList (s : WMState) (w : Nat) :
    (getWindowGeometry s w).2.windowList = s.windowList := by
  rw [getWindowGeometry_snd_frame]

lemma getWindowGeometry_snd_index (s : WMState) (w : Nat) :
    (getWindowGeometry s w).2.currentWindowIndex = s.currentWindowIndex := by
  rw [getWindowGeometry_snd_frame]

lemma focusWindow_windowList (s : WMState) (w : Nat) :
    (focusWindow s w).windowList = s.windowList := by
  rw [focusWindow_frame]

lemma focusWindow_index (s : WMState) (w : Nat) :
    (focusWindow s w).currentWindowIndex = s.currentWindowIndex := by
  rw [focusWindow_frame]

lemma handleMapRequest_indexOk (s : WMState) (w : Nat) (o : Bool)
    (h : currentIndexOk s) : currentIndexOk (handleMapRequest s w o) := by
  unfold handleMapRequest
  dsimp only
  split
  · exact h
  · split
    · refine currentIndexOk_congr ?_ ?_ h
      · rw [getWindowGeometry_snd_windowList, focusWindow_windowList]
      · rw [getWindowGeometry_snd_index, focusWindow_index]
    · refine Or.inl ?_
      rw [getWindowGeometry_snd_windowList, getWindowGeometry_snd_index]
      dsimp only
      rw [focusWindow_windowList]
      simp

lemma createPopUpWindow_indexOk (s : WMState) (k : DialogKind) (nid wd ht : Nat)
    (h : currentIndexOk s) : currentIndexOk (createPopUpWindow s k nid wd ht) := by
  unfold createPopUpWindow
  dsimp only
  split
  · exact h
  · refine Or.inl ?_
    rw [focusWindow_windowList, focusWindow_index]
    dsimp only
    have hw : (setDialog s k true nid).windowList = s.windowList := by
      cases k <;> rfl
    rw [hw]
    simp

lemma erase_index_reset_ok (l : List Nat) (w : Nat) (i : Nat) :
    (if (l.erase w).length ≤ i then 0 else i) < (l.erase w).length
    ∨ (l.erase w = [] ∧ (if (l.erase w).length ≤ i then 0 else i) = 0) := by
  rcases Nat.eq_zero_or_pos (l.erase w).length with h0 | h0
  · rw [if_pos (by omega)]
    exact Or.inr ⟨List.length_eq_zero.mp h0, rfl⟩
  · split
    · exact Or.inl h0
    · exact Or.inl (by omega)

lemma destroyPopUpWindow_wl_idx (s : WMState) (k : DialogKind) :
    ((destroyPopUpWindow s k).windowList = s.windowList
      ∧ (destroyPopUpWindow s k).currentWindowIndex = s.currentWindowIndex)
    ∨ ((destroyPopUpWindow s k).windowList = s.windowList.erase (dialogWindow s k)
      ∧ (destroyPopUpWindow s k).currentWindowIndex =
          (if (s.windowList.erase (dialogWindow s k)).length ≤ s.currentWindowIndex then 0
           else s.currentWindowIndex)) := by
  cases k <;>
  · unfold destroyPopUpWindow dialogActive dialogWindow setDialog resetFocus focusWindow
    dsimp only
    repeat' split
    all_goals first
    | exact Or.inl ⟨rfl, rfl⟩
    | exact Or.inr ⟨rfl, rfl⟩

lemma destroyPopUpWindow_indexOk (s : WMState) (k : DialogKind)
    (h : currentIndexOk s) : currentIndexOk (destroyPopUpWindow s k) := by
  rcases destroyPopUpWindow_wl_idx s k with ⟨h1, h2⟩ | ⟨h1, h2⟩
  · exact currentIndexOk_congr h1 h2 h
  · unfold currentIndexOk
    rw [h1, h2]
    exact erase_index_reset_ok s.windowList (dialogWindow s k) s.currentWindowIndex

lemma handleDestroyNotify_indexOk (s : WMState) (w : Nat)
    (h : currentIndexOk s) : currentIndexOk (handleDestroyNotify s w) := by
  unfold handleDestroyNotify invalidateGeometryCache
  dsimp only
  split
  · exact erase_index_reset_ok s.windowList w s.currentWindowIndex
  · exact h

lemma restoreLoop_windowList_ext (ws : List Nat) :
    ∀ s : WMState, ∃ ext, (restoreLoop s ws).windowList = s.windowList ++ ext := by
  induction ws with
  | nil => intro s; exact ⟨[], by simp [restoreLoop]⟩
  | cons w rest ih =>
    intro s
    unfold restoreLoop
    split
    · exact ih s
    · obtain ⟨ext, hext⟩ := ih { s with windowList := s.windowList ++ [w] }
      exact ⟨w :: ext, by rw [hext]; simp⟩

lemma restoreLoop_index (ws : List Nat) (s : WMState) :
    (restoreLoop s ws).currentWindowIndex = s.currentWindowIndex := by
  rw [restoreLoop_frame]

lemma restoreAllMinimized_indexOk (s : WMState) (h : currentIndexOk s) :
    currentIndexOk (restoreAllMinimized s) := by
  obtain ⟨ext, hext⟩ := restoreLoop_windowList_ext s.minimizedWindows s
  have hproj : (restoreAllMinimized s).windowList = s.windowList ++ ext
      ∧ (restoreAllMinimized s).currentWindowIndex = s.currentWindowIndex := by
    unfold restoreAllMinimized
    dsimp only
    split
    · exact ⟨hext, restoreLoop_index s.minimizedWindows s⟩
    · rw [focusWindow_windowList, focusWindow_index]
      exact ⟨hext, restoreLoop_index s.minimizedWindows s⟩
  unfold currentIndexOk at h ⊢
  rw [hproj.1, hproj.2]
  rcases h with h | ⟨h1, h2⟩
  · left
    rw [List.length_append]
    omega
  · rw [h1, h2]
    cases ext with
    | nil => exact Or.inr ⟨rfl, rfl⟩
    | cons a rest => left; simp

/-! ### Claim theorems -/

/-- C1 (counterexample): the claim that a dialog create-request issued while
any dialog is active is a no-op, and that at most one dialog is ever active
under arbitrary create-request sequences, is false at the create-request
functions themselves: `WM::createPopUpWindow` is guarded only by the
requested dialog's own flag, so creating the Exit-Confirmation dialog and
then requesting the Runner dialog leaves BOTH dialogs active. -/
theorem c1_counterexample :
    (createRunnerDialog (createExitConfirmationDialog {} 100) 101).isExitConfirmationActive
        = true
    ∧ (createRunnerDialog (createExitConfirmationDialog {} 100) 101).isRunnerActive = true := by
  decide

/-- C1 (amended): dialog create requests are only ever issued by the
key-press dispatcher, which routes every keystroke to the active dialog
before the create chords can run; therefore, starting from any state where at
most one dialog is active, after any sequence of dispatched events (key
presses including dialog keystrokes and dialog-opening chords, button
presses, motions, releases, map requests and destroy notifications) at most
one of the three dialogs is active. -/
theorem c1_dialog_exclusivity (s : WMState) (evs : List XEvent)
    (h : atMostOneDialog s) : atMostOneDialog (runEvents s evs) :=
  runEvents_atMostOne evs s h

/-- C1 witness: a Runner-open chord followed by an Exit-Confirmation chord
from the initial state keeps at most one dialog active. -/
theorem c1_witness :
    atMostOneDialog ({} : WMState)
    ∧ atMostOneDialog (runEvents {}
        [XEvent.key { ks := 114, alt := true, newId := 50 },
         XEvent.key { ks := 113, alt := true, newId := 51 }]) :=
  ⟨⟨Or.inl rfl, Or.inl rfl, Or.inl rfl⟩,
   c1_dialog_exclusivity {} _ ⟨Or.inl rfl, Or.inl rfl, Or.inl rfl⟩⟩

/-- C2 (counterexample): `WM::handleButtonPress` does not check whether the
other gesture slot is pending, so an Alt+button-1 press followed by an
Alt+button-3 press with no intervening release leaves BOTH the move slot and
the resize slot holding window 5 — the mutual-exclusion invariant fails at a
reachable state. -/
theorem c2_counterexample :
    ¬ atMostOneGesture (runEvents
      { windowList := [5], realGeom := [(5, ⟨30, 40, 200, 100⟩)],
        screenWidth := 1920, screenHeight := 1080 }
      [XEvent.button { eventWin := 1, child := 5, detail := 1 },
       XEvent.button { eventWin := 1, child := 5, detail := 3 }]) := by
  decide

/-- C2 (amended): the mutual exclusion of the move and resize slots holds as
long as every button press arrives while the controller is idle (each press
is separated from the next by a button release, which unconditionally clears
both slots): from any state with at most one pending operation, any guarded
event sequence keeps at most one of the two slots occupied. -/
theorem c2_gesture_exclusivity (s : WMState) (evs : List XEvent)
    (h : atMostOneGesture s) (hg : pressesGuarded s evs = true) :
    atMostOneGesture (runEvents s evs) :=
  runEvents_gesture evs s h hg

/-- C3 (counterexample): the minimize branch of `WM::handleKeyPress` erases
the focused window from the active sequence without adjusting the current
index — after mapping windows 10 and 20 (index 1) and minimizing the focused
window 20, the index is 1 while the sequence is the non-empty `[10]` of
length 1, so the index is not a valid position and the sequence is not
empty. -/
theorem c3_counterexample :
    ¬ ((handleKeyPress (handleMapRequest (handleMapRequest {} 10 false) 20 false)
          { ks := 109, alt := true, foc := 20 }).currentWindowIndex
        < (handleKeyPress (handleMapRequest (handleMapRequest {} 10 false) 20 false)
          { ks := 109, alt := true, foc := 20 }).windowList.length
      ∨ (handleKeyPress (handleMapRequest (handleMapRequest {} 10 false) 20 false)
          { ks := 109, alt := true, foc := 20 }).windowList = []) := by
  decide

/-- C3 (amended): with the minimize branch excepted (it does not adjust the
index and can leave it one past the end of the sequence), every
registry-mutating operation named by the claim — registering on map request,
popup creation, popup destruction, removal on destroy notification, and
restoring all minimized windows — keeps the current index a valid position
in the active sequence, or leaves the sequence empty with the index reset to
0, whenever the starting state satisfies that same condition. -/
theorem c3_index_validity (s : WMState) (w nid wd ht : Nat) (k : DialogKind) (o : Bool)
    (h : currentIndexOk s) :
    currentIndexOk (handleMapRequest s w o)
    ∧ currentIndexOk (createPopUpWindow s k nid wd ht)
    ∧ currentIndexOk (destroyPopUpWindow s k)
    ∧ currentIndexOk (handleDestroyNotify s w)
    ∧ currentIndexOk (restoreAllMinimized s) :=
  ⟨handleMapRequest_indexOk s w o h, createPopUpWindow_indexOk s k nid wd ht h,
   destroyPopUpWindow_indexOk s k h, handleDestroyNotify_indexOk s w h,
   restoreAllMinimized_indexOk s h⟩

/-- C3 witness: the index invariant is preserved by each operation at a
concrete state with two client windows, an exit dialog and one minimized
window. -/
theorem c3_witness :
    currentIndexOk c3State
    ∧ currentIndexOk (handleMapRequest c3State 40 false)
    ∧ currentIndexOk (createPopUpWindow c3State DialogKind.runner 50 300 50)
    ∧ currentIndexOk (destroyPopUpWindow c3State DialogKind.exitConf)
    ∧ currentIndexOk (handleDestroyNotify c3State 20)
    ∧ currentIndexOk (restoreAllMinimized c3State) :=
  ⟨by decide,
   (c3_index_validity c3State 40 50 300 50 DialogKind.runner false (by decide)).1,
   (c3_index_validity c3State 40 50 300 50 DialogKind.runner false (by decide)).2.1,
   (c3_index_validity c3State 20 50 300 50 DialogKind.exitConf false (by decide)).2.2.1,
   (c3_index_validity c3State 20 50 300 50 DialogKind.exitConf false (by decide)).2.2.2.1,
   (c3_index_validity c3State 40 50 300 50 DialogKind.runner false (by decide)).2.2.2.2⟩

/-- C4 (counterexample): while the Exit-Confirmation dialog is active, the
keysym `XK_N` (78, produced by Shift+N) neither destroys the dialog nor
terminates the process — the source compares against `XK_n` and `XK_Escape`
only, so uppercase N is ignored, contradicting the claim that N destroys the
dialog. -/
theorem c4_counterexample :
    (handleKeyPress c4State { ks := 78, alt := false }).isExitConfirmationActive = true
    ∧ (handleKeyPress c4State { ks := 78, alt := false }).terminated = false := by
  decide

/-- C4 (amended): while the Exit-Confirmation dialog is active (and backed by
a window), every keystroke is routed to its handler; keysyms `XK_y` (121) and
`XK_Y` (89) terminate the process; keysyms `XK_n` (110) and `XK_Escape`
(65307) destroy the dialog without terminating; every other keystroke —
including uppercase `XK_N` (78) — leaves the state unchanged. -/
theorem c4_exit_dialog_keys (s : WMState) (ev : KeyEvent)
    (hA : s.isExitConfirmationActive = true) (hW : s.exitConfirmationWindow ≠ 0) :
    handleKeyPress s ev = handleExitConfirmationKeypress s ev.ks
    ∧ ((ev.ks = 121 ∨ ev.ks = 89) →
        (handleExitConfirmationKeypress s ev.ks).terminated = true)
    ∧ ((ev.ks = 110 ∨ ev.ks = 65307) →
        (handleExitConfirmationKeypress s ev.ks).isExitConfirmationActive = false
        ∧ (handleExitConfirmationKeypress s ev.ks).exitConfirmationWindow = 0
        ∧ (handleExitConfirmationKeypress s ev.ks).terminated = s.terminated)
    ∧ (¬(ev.ks = 121 ∨ ev.ks = 89) → ¬(ev.ks = 110 ∨ ev.ks = 65307) →
        handleExitConfirmationKeypress s ev.ks = s) := by
  refine ⟨?_, ?_, ?_, ?_⟩
  · unfold handleKeyPress
    rw [if_pos hA]
  · intro hks
    unfold handleExitConfirmationKeypress
    rw [if_pos hks]
  · intro hks
    have hne : ¬(ev.ks = 121 ∨ ev.ks = 89) := by
      rcases hks with h | h <;> omega
    unfold handleExitConfirmationKeypress destroyExitConfirmationDialog destroyPopUpWindow
      dialogActive dialogWindow
    rw [if_neg hne, if_pos hks, if_neg (by simp [hA, hW])]
    dsimp only
    rw [resetFocus_frame]
    refine ⟨rfl, rfl, ?_⟩
    dsimp only [setDialog]
    split <;> rfl
  · intro h1 h2
    unfold handleExitConfirmationKeypress
    rw [if_neg h1, if_neg h2]

/-- C4 witness: at the concrete active-dialog state, keysym 110 (`XK_n`)
destroys the dialog. -/
theorem c4_witness :
    (handleExitConfirmationKeypress c4State 110).isExitConfirmationActive = false
    ∧ (handleExitConfirmationKeypress c4State 110).exitConfirmationWindow = 0 :=
  ⟨((c4_exit_dialog_keys c4State { ks := 110, alt := false } (by decide)
      (by decide)).2.2.1 (Or.inl rfl)).1,
   ((c4_exit_dialog_keys c4State { ks := 110, alt := false } (by decide)
      (by decide)).2.2.1 (Or.inl rfl)).2.1⟩

/-- C5 (counterexample): a destroy notification for a window present in the
minimized set leaves the minimized set untouched — `WM::handleDestroyNotify`
never erases from `m_minimizedWindows`, contradicting the claim that
unregistering removes the window from the minimized set. -/
theorem c5_counterexample :
    20 ∈ ({ minimizedWindows := [20] } : WMState).minimizedWindows
    ∧ (handleDestroyNotify { minimizedWindows := [20] } 20).minimizedWindows = [20] := by
  decide

/-- C5 (amended): processing a destroy notification removes the window from
the active sequence (erasing its first occurrence; a no-op when absent) and
from the geometry cache, resets the current index to 0 exactly when the
window was present and the index then points past the end, but leaves the
minimized set unchanged. -/
theorem c5_destroy_notify (s : WMState) (w : Nat) :
    (handleDestroyNotify s w).windowList = s.windowList.erase w
    ∧ (handleDestroyNotify s w).minimizedWindows = s.minimizedWindows
    ∧ (handleDestroyNotify s w).geometryCache = mapErase s.geometryCache w
    ∧ (handleDestroyNotify s w).realGeom = mapErase s.realGeom w
    ∧ (handleDestroyNotify s w).currentWindowIndex =
        (if s.windowList.contains w ∧ (s.windowList.erase w).length ≤ s.currentWindowIndex
         then 0 else s.currentWindowIndex) := by
  unfold handleDestroyNotify invalidateGeometryCache
  dsimp only
  by_cases hc : s.windowList.contains w = true
  · rw [if_pos hc]
    refine ⟨rfl, rfl, rfl, rfl, ?_⟩
    simp only [hc, true_and]
  · rw [if_neg hc]
    have hm : w ∉ s.windowList := by simpa using hc
    refine ⟨(List.erase_of_not_mem hm).symm, rfl, rfl, rfl, ?_⟩
    simp [hc, hm]

/-- C6 (counterexample): a motion event whose raw x-coordinate is 5 (absolute
value below the 10-pixel threshold) does NOT place the window at x = 0 when
the window is 1912 pixels wide on a 1920-pixel screen: the near-zero clamp
fires first, but the far-edge clamp is then applied to the already-clamped
value and overrides it, leaving x = 8 = 1920 − 1912, so the claim's "a
coordinate whose absolute value is below the threshold is clamped to 0" is
false. -/
theorem c6_counterexample :
    (5 : Int).natAbs < 10
    ∧ mapFind (handleMotionNotify c6State 5 300).realGeom 5 = some ⟨8, 300, 1912, 500⟩ := by
  decide

/-- C6 (amended): while a move gesture is active, every motion event places
the window at its original position plus the pointer delta, snapped per axis
by `snapAxis`: the coordinate is first clamped to 0 when its absolute value
is under the 10-pixel threshold, and the far-edge clamp is then applied to
the result of that first clamp, overriding it when the far edge of the
(possibly zeroed) coordinate lies within the threshold of the screen's far
edge.  Consequently a window whose far edge is within the threshold (and
whose raw coordinate is not near 0) is pinned flush at
`screenDim − winDim`, a window whose raw coordinate is within the threshold
of 0 is pinned at 0 whenever the window is not itself within the threshold
of the screen size, and when both conditions hold the far-edge clamp wins. -/
theorem c6_motion_snapping :
    (∀ (s : WMState) (mx my : Int) (g : WindowGeometry),
      s.moveStart.window ≠ 0 →
      mapFind s.geometryCache s.moveStart.window = none →
      mapFind s.realGeom s.moveStart.window = some g →
      mapFind (handleMotionNotify s mx my).realGeom s.moveStart.window =
        some { g with
          x := snapAxis (s.moveStart.orig_x + (mx - s.moveStart.start_x))
                 (g.width : Int) s.screenWidth,
          y := snapAxis (s.moveStart.orig_y + (my - s.moveStart.start_y))
                 (g.height : Int) s.screenHeight })
    ∧ (∀ r wd sd : Int, (r + wd - sd).natAbs < 10 → 10 ≤ r.natAbs →
        snapAxis r wd sd = sd - wd)
    ∧ (∀ r wd sd : Int, r.natAbs < 10 → 10 ≤ (wd - sd).natAbs → snapAxis r wd sd = 0)
    ∧ (∀ r wd sd : Int, r.natAbs < 10 → (wd - sd).natAbs < 10 → snapAxis r wd sd = sd - wd) := by
  refine ⟨?_, ?_, ?_, ?_⟩
  · intro s mx my g h1 h2 h3
    unfold handleMotionNotify invalidateGeometryCache getWindowGeometry realSetPos
    rw [if_pos h1]
    dsimp only
    simp only [h2, h3]
    try dsimp only
    try simp only [h3]
    rw [mapFind_mapInsert_self]
  · intro r wd sd h1 h2
    unfold snapAxis
    dsimp only
    split_ifs <;> omega
  · intro r wd sd h1 h2
    unfold snapAxis
    dsimp only
    split_ifs <;> omega
  · intro r wd sd h1 h2
    unfold snapAxis
    dsimp only
    split_ifs <;> omega

/-- C6 witness: the spec's worked examples, via the amended theorem: a
200-pixel window dragged so its raw x would be 8 is snapped to 0; a drag
placing its right edge at 1915 is snapped flush so the right edge is exactly
1920 (x = 1720); and the motion handler at the concrete mid-drag state
performs exactly the snapped placement. -/
theorem c6_witness :
    snapAxis 8 200 1920 = 0
    ∧ snapAxis 1715 200 1920 = 1720
    ∧ mapFind (handleMotionNotify c6State 5 300).realGeom 5 =
        some { x := snapAxis (0 + (5 - 0)) 1912 1920, y := snapAxis (0 + (300 - 0)) 500 1080,
               width := 1912, height := 500 } :=
  ⟨c6_motion_snapping.2.2.1 8 200 1920 (by decide) (by decide),
   c6_motion_snapping.2.1 1715 200 1920 (by decide) (by decide),
   c6_motion_snapping.1 c6State 5 300 ⟨0, 0, 1912, 500⟩ (by decide) (by decide) (by decide)⟩

lemma contains_append_self (l : List Nat) (w : Nat) : (l ++ [w]).contains w = true := by
  simp

lemma contains_filter_ne_self (l : List Nat) (w : Nat) :
    (l.filter (fun v => v != w)).contains w = false := by
  simp

/-- `WM::toggleFullscreen` on an unmarked window with a cache miss and a
successful geometry query: the geometry is saved, the fullscreen property is
set, the window is configured to cover the screen, and the cache is
invalidated (the query's caching is immediately undone). -/
lemma toggleFullscreen_enter (s : WMState) (w : Nat) (g : WindowGeometry)
    (hw : w ≠ 0) (hm : s.fullscreenMarked.contains w = false)
    (hc : mapFind s.geometryCache w = none) (hr : mapFind s.realGeom w = some g) :
    toggleFullscreen s w = { s with
      geometryCache := mapErase (mapInsert s.geometryCache w g) w,
      originalGeometry := mapInsert s.originalGeometry w g,
      fullscreenMarked := s.fullscreenMarked ++ [w],
      realGeom := mapInsert s.realGeom w ⟨0, 0, s.screenWidth.toNat, s.screenHeight.toNat⟩ } := by
  unfold toggleFullscreen getWindowGeometry invalidateGeometryCache realSetRect
  rw [if_neg hw, if_pos (by simp only [hm]; decide)]
  dsimp only
  simp only [hc, hr, hm]
  try dsimp only
  try simp only [hr, hm]
  simp

/-- `WM::toggleFullscreen` on a marked window with a saved geometry: the
saved rectangle is restored, the saved entry erased, the property removed,
and the cache invalidated. -/
lemma toggleFullscreen_exit (s : WMState) (w : Nat) (g : WindowGeometry)
    (hw : w ≠ 0) (hm : s.fullscreenMarked.contains w = true)
    (ho : mapFind s.originalGeometry w = some g) :
    toggleFullscreen s w = { s with
      geometryCache := mapErase s.geometryCache w,
      originalGeometry := mapErase s.originalGeometry w,
      fullscreenMarked := s.fullscreenMarked.filter (fun v => v != w),
      realGeom := realSetRect s.realGeom w g.x g.y g.width g.height } := by
  unfold toggleFullscreen invalidateGeometryCache
  rw [if_neg hw, if_neg (by simp only [hm]; decide)]
  dsimp only
  simp only [ho]

/-- `WM::toggleFullscreen` on a marked window with NO saved geometry: the
missing entry is tolerated, only the property is removed and the cache
invalidated. -/
lemma toggleFullscreen_exit_missing (s : WMState) (w : Nat)
    (hw : w ≠ 0) (hm : s.fullscreenMarked.contains w = true)
    (ho : mapFind s.originalGeometry w = none) :
    toggleFullscreen s w = { s with
      geometryCache := mapErase s.geometryCache w,
      fullscreenMarked := s.fullscreenMarked.filter (fun v => v != w) } := by
  unfold toggleFullscreen invalidateGeometryCache
  rw [if_neg hw, if_neg (by simp only [hm]; decide)]
  dsimp only
  simp only [ho]

/-- C7: toggling fullscreen twice on a window not currently marked
fullscreen, with a coherent geometry view and no intervening geometry
change, restores exactly the original rectangle: the first toggle saves the
geometry, marks the window fullscreen and configures it to cover the screen;
the second restores the saved rectangle, unmarks it and erases the saved
entry; the geometry cache is invalidated after each toggle.  A marked window
with a missing saved entry is tolerated silently: nothing is configured, the
property is removed and the cache invalidated. -/
theorem c7_fullscreen_roundtrip :
    (∀ (s : WMState) (w : Nat) (g : WindowGeometry),
      w ≠ 0 → s.fullscreenMarked.contains w = false →
      mapFind s.geometryCache w = none → mapFind s.realGeom w = some g →
      mapFind (toggleFullscreen s w).realGeom w =
          some ⟨0, 0, s.screenWidth.toNat, s.screenHeight.toNat⟩
      ∧ (toggleFullscreen s w).fullscreenMarked.contains w = true
      ∧ mapFind (toggleFullscreen s w).originalGeometry w = some g
      ∧ mapFind (toggleFullscreen s w).geometryCache w = none
      ∧ mapFind (toggleFullscreen (toggleFullscreen s w) w).realGeom w = some g
      ∧ (toggleFullscreen (toggleFullscreen s w) w).fullscreenMarked.contains w = false
      ∧ mapFind (toggleFullscreen (toggleFullscreen s w) w).originalGeometry w = none
      ∧ mapFind (toggleFullscreen (toggleFullscreen s w) w).geometryCache w = none)
    ∧ (∀ (s : WMState) (w : Nat), w ≠ 0 → s.fullscreenMarked.contains w = true →
      mapFind s.originalGeometry w = none →
      (toggleFullscreen s w).realGeom = s.realGeom
      ∧ (toggleFullscreen s w).fullscreenMarked.contains w = false
      ∧ mapFind (toggleFullscreen s w).geometryCache w = none) := by
  constructor
  · intro s w g hw hm hc hr
    have h1 := toggleFullscreen_enter s w g hw hm hc hr
    rw [h1]
    have hmark : (s.fullscreenMarked ++ [w]).contains w = true := contains_append_self _ _
    have horig : mapFind (mapInsert s.originalGeometry w g) w = some g :=
      mapFind_mapInsert_self _ _ _
    have h2 := toggleFullscreen_exit
      { s with
        geometryCache := mapErase (mapInsert s.geometryCache w g) w,
        originalGeometry := mapInsert s.originalGeometry w g,
        fullscreenMarked := s.fullscreenMarked ++ [w],
        realGeom := mapInsert s.realGeom w ⟨0, 0, s.screenWidth.toNat, s.screenHeight.toNat⟩ }
      w g hw hmark horig
    rw [h2]
    refine ⟨mapFind_mapInsert_self _ _ _, hmark, horig, mapFind_mapErase_self _ _,
      ?_, contains_filter_ne_self _ _, mapFind_mapErase_self _ _, mapFind_mapErase_self _ _⟩
    dsimp only
    unfold realSetRect
    rw [mapFind_mapInsert_self, mapFind_mapInsert_self]
  · intro s w hw hm ho
    rw [toggleFullscreen_exit_missing s w hw hm ho]
    exact ⟨rfl, contains_filter_ne_self _ _, mapFind_mapErase_self _ _⟩

/-- C7 witness: the round-trip at a concrete window of geometry
(25, 35, 200, 150) on a 1920×1080 screen, and the silent tolerance of a
missing saved entry. -/
theorem c7_witness :
    (mapFind (toggleFullscreen c7State 7).realGeom 7 = some ⟨0, 0, 1920, 1080⟩
      ∧ mapFind (toggleFullscreen (toggleFullscreen c7State 7) 7).realGeom 7 =
          some ⟨25, 35, 200, 150⟩)
    ∧ (toggleFullscreen { fullscreenMarked := [9] } 9).fullscreenMarked.contains 9 = false :=
  ⟨⟨(c7_fullscreen_roundtrip.1 c7State 7 ⟨25, 35, 200, 150⟩ (by decide) (by decide)
      (by decide) (by decide)).1,
    (c7_fullscreen_roundtrip.1 c7State 7 ⟨25, 35, 200, 150⟩ (by decide) (by decide)
      (by decide) (by decide)).2.2.2.2.1⟩,
   (c7_fullscreen_roundtrip.2 { fullscreenMarked := [9] } 9 (by decide) (by decide)
      (by decide)).2.1⟩

lemma candAt_shift (s : WMState) (i : Nat) :
    candAt { s with currentWindowIndex := (s.currentWindowIndex + 1) % s.windowList.length } i
      = candAt s (i + 1) := by
  unfold candAt
  dsimp only
  have h : ((s.currentWindowIndex + 1) % s.windowList.length + 1 + i) % s.windowList.length
      = (s.currentWindowIndex + 1 + (i + 1)) % s.windowList.length := by
    conv_lhs => rw [Nat.add_assoc, Nat.mod_add_mod]
    congr 1
    omega
  rw [h]

lemma focusNextAux_allFalse (v : Nat → Bool) :
    ∀ (k : Nat) (s : WMState), 0 < s.windowList.length →
      (∀ w ∈ s.windowList, v w = false) →
      (focusNextAux v k s).1 =
        (if k = 0 then s
         else { s with
           currentWindowIndex := (s.currentWindowIndex + k) % s.windowList.length }) := by
  intro k
  induction k with
  | zero => intro s _ _; simp [focusNextAux]
  | succ n ih =>
    intro s h1 h2
    unfold focusNextAux
    dsimp only
    have hmem : s.windowList.getD ((s.currentWindowIndex + 1) % s.windowList.length) 0
        ∈ s.windowList := by
      rw [List.getD_eq_getElem s.windowList 0 (Nat.mod_lt _ h1)]
      exact List.getElem_mem _
    rw [if_neg (by rw [h2 _ hmem]; decide)]
    rw [ih { s with
      currentWindowIndex := (s.currentWindowIndex + 1) % s.windowList.length } h1 h2]
    by_cases hn : n = 0
    · subst hn
      simp
    · rw [if_neg hn, if_neg (Nat.succ_ne_zero n)]
      dsimp only
      have harith : ((s.currentWindowIndex + 1) % s.windowList.length + n)
            % s.windowList.length
          = (s.currentWindowIndex + (n + 1)) % s.windowList.length := by
        rw [Nat.mod_add_mod]
        congr 1
        omega
      rw [harith]

lemma focusNextAux_found (v : Nat → Bool) :
    ∀ (j k : Nat) (s : WMState), j < k → 0 < s.windowList.length →
      (∀ i < j, v (candAt s i) = false) → v (candAt s j) = true → candAt s j ≠ 0 →
      (focusNextAux v k s).1 = { s with
        currentWindowIndex := (s.currentWindowIndex + 1 + j) % s.windowList.length,
        lastFocused := some (candAt s j) } := by
  intro j
  induction j with
  | zero =>
    intro k s hk _ _ hv hnz
    cases k with
    | zero => omega
    | succ n =>
      unfold focusNextAux
      dsimp only
      have hc : candAt s 0
          = s.windowList.getD ((s.currentWindowIndex + 1) % s.windowList.length) 0 := by
        unfold candAt
        norm_num
      rw [hc] at hv hnz
      rw [if_pos hv]
      unfold focusWindow
      rw [if_neg hnz]
      simp [candAt]
  | succ m ih =>
    intro k s hk h1 hall hv hnz
    cases k with
    | zero => omega
    | succ n =>
      unfold focusNextAux
      dsimp only
      have hc : candAt s 0
          = s.windowList.getD ((s.currentWindowIndex + 1) % s.windowList.length) 0 := by
        unfold candAt
        norm_num
      have h0 : v (s.windowList.getD
          ((s.currentWindowIndex + 1) % s.windowList.length) 0) = false := by
        rw [← hc]
        exact hall 0 (Nat.succ_pos m)
      rw [if_neg (by rw [h0]; decide)]
      dsimp only
      have hall2 : ∀ i < m,
          v (candAt { s with
            currentWindowIndex := (s.currentWindowIndex + 1) % s.windowList.length } i)
          = false := by
        intro i hi
        rw [candAt_shift]
        exact hall (i + 1) (by omega)
      have hv2 : v (candAt { s with
          currentWindowIndex := (s.currentWindowIndex + 1) % s.windowList.length } m)
          = true := by
        rw [candAt_shift]
        exact hv
      have hnz2 : candAt { s with
          currentWindowIndex := (s.currentWindowIndex + 1) % s.windowList.length } m ≠ 0 := by
        rw [candAt_shift]
        exact hnz
      rw [ih n { s with
        currentWindowIndex := (s.currentWindowIndex + 1) % s.windowList.length }
        (by omega) h1 hall2 hv2 hnz2, candAt_shift]
      have harith : ((s.currentWindowIndex + 1) % s.windowList.length + 1 + m)
            % s.windowList.length
          = (s.currentWindowIndex + 1 + (m + 1)) % s.windowList.length := by
        conv_lhs => rw [Nat.add_assoc, Nat.mod_add_mod]
        congr 1
        omega
      rw [harith]

lemma focusNextAux_examined (v : Nat → Bool) :
    ∀ (k : Nat) (s : WMState), (focusNextAux v k s).2 ≤ k := by
  intro k
  induction k with
  | zero => intro s; simp [focusNextAux]
  | succ n ih =>
    intro s
    unfold focusNextAux
    dsimp only
    split
    · simp
    · dsimp only
      have := ih { s with
        currentWindowIndex := (s.currentWindowIndex + 1) % s.windowList.length }
      omega

lemma windowList_not_isEmpty {s : WMState} (h : 0 < s.windowList.length) :
    ¬ s.windowList.isEmpty = true := by
  simp only [List.isEmpty_iff]
  intro hnil
  rw [hnil] at h
  simp at h

/-- C8: `WM::focusNextWindow` on a registry of N windows (with a valid
current index) scans cyclically starting one position after the current
index: when no window is viewable it terminates after examining at most N
candidates and leaves the state unchanged; when the j-th candidate is the
first viewable window, the call focuses exactly that window and sets the
current index to its position; the window list itself is never modified. -/
theorem c8_focus_next (s : WMState) (v : Nat → Bool)
    (h : s.currentWindowIndex < s.windowList.length) :
    ((∀ w ∈ s.windowList, v w = false) → focusNextWindow s v = s)
    ∧ (∀ j, j < s.windowList.length → (∀ i < j, v (candAt s i) = false) →
        v (candAt s j) = true → candAt s j ≠ 0 →
        focusNextWindow s v = { s with
          currentWindowIndex := (s.currentWindowIndex + 1 + j) % s.windowList.length,
          lastFocused := some (candAt s j) })
    ∧ (focusNextWindow s v).windowList = s.windowList
    ∧ focusNextExamined s v ≤ s.windowList.length := by
  have hpos : 0 < s.windowList.length := by omega
  refine ⟨?_, ?_, ?_, ?_⟩
  · intro hall
    unfold focusNextWindow
    rw [if_neg (windowList_not_isEmpty hpos)]
    rw [focusNextAux_allFalse v s.windowList.length s hpos hall]
    rw [if_neg (by omega)]
    have heq : (s.currentWindowIndex + s.windowList.length) % s.windowList.length
        = s.currentWindowIndex := by
      rw [Nat.add_mod_right]
      exact Nat.mod_eq_of_lt h
    rw [heq]
  · intro j hj hall hv hnz
    unfold focusNextWindow
    rw [if_neg (windowList_not_isEmpty hpos)]
    exact focusNextAux_found v j s.windowList.length s hj hpos hall hv hnz
  · rw [focusNextWindow_frame]
  · unfold focusNextExamined
    rw [if_neg (windowList_not_isEmpty hpos)]
    exact focusNextAux_examined v s.windowList.length s

/-- C8 witness: with no window viewable the call leaves the concrete state
unchanged after at most three examinations; with only window 30 viewable it
focuses window 30 (candidate 1) and moves the index to its position. -/
theorem c8_witness :
    focusNextWindow c8State (fun _ => false) = c8State
    ∧ focusNextWindow c8State (fun w => w == 30) =
        { c8State with
          currentWindowIndex := (0 + 1 + 1) % 3,
          lastFocused := some (candAt c8State 1) }
    ∧ focusNextExamined c8State (fun _ => false) ≤ 3 :=
  ⟨(c8_focus_next c8State (fun _ => false) (by decide)).1 (by decide),
   (c8_focus_next c8State (fun w => w == 30) (by decide)).2.1 1 (by decide) (by decide)
     (by decide) (by decide),
   (c8_focus_next c8State (fun _ => false) (by decide)).2.2.2⟩

/-- The minimize branch on an eligible focused window: erase it from the
active list and append it to the minimized list. -/
lemma minimizeFocused_spec (s : WMState) (w : Nat) (h0 : w ≠ 0)
    (h1 : w ≠ s.runnerWindow) (h2 : w ≠ s.exitConfirmationWindow) (h3 : w ≠ s.helpWindow) :
    (minimizeFocused s w).windowList = s.windowList.erase w
    ∧ (minimizeFocused s w).minimizedWindows = s.minimizedWindows ++ [w] := by
  unfold minimizeFocused
  rw [if_pos ⟨h0, h1, h2, h3⟩]
  dsimp only
  rw [resetFocus_frame]
  exact ⟨rfl, rfl⟩

/-- The restore loop appends the restored windows in order when they are all
absent from the active list and pairwise distinct. -/
lemma restoreLoop_append (ws : List Nat) :
    ∀ s : WMState, (∀ x ∈ ws, x ∉ s.windowList) → ws.Nodup →
      (restoreLoop s ws).windowList = s.windowList ++ ws := by
  induction ws with
  | nil => intro s _ _; simp [restoreLoop]
  | cons w rest ih =>
    intro s hd hn
    unfold restoreLoop
    rw [if_neg (by simpa using hd w (List.mem_cons_self w rest))]
    rw [ih { s with windowList := s.windowList ++ [w] } ?_ hn.of_cons]
    · dsimp only
      rw [List.append_assoc]
      rfl
    · intro x hx
      dsimp only
      simp only [List.mem_append, List.mem_singleton, not_or]
      constructor
      · exact hd x (List.mem_cons_of_mem w hx)
      · intro hx2
        subst hx2
        exact (List.nodup_cons.mp hn).1 hx

/-- The restore-all branch under disjointness: the active list is extended by
all minimized windows, the minimized list is cleared, and the last restored
window is focused. -/
lemma restoreAllMinimized_spec (t : WMState) (w' : Nat)
    (hd : ∀ x ∈ t.minimizedWindows, x ∉ t.windowList) (hn : t.minimizedWindows.Nodup)
    (hlast : (t.windowList ++ t.minimizedWindows).getLast? = some w') (hw0 : w' ≠ 0) :
    (restoreAllMinimized t).windowList = t.windowList ++ t.minimizedWindows
    ∧ (restoreAllMinimized t).minimizedWindows = []
    ∧ (restoreAllMinimized t).lastFocused = some w' := by
  have hloop := restoreLoop_append t.minimizedWindows t hd hn
  unfold restoreAllMinimized
  dsimp only
  have hne : ¬ (restoreLoop t t.minimizedWindows).windowList.isEmpty = true := by
    simp only [List.isEmpty_iff, hloop]
    intro hnil
    rw [hnil] at hlast
    simp at hlast
  rw [if_neg hne]
  have hl : (restoreLoop t t.minimizedWindows).windowList.getLast?.getD 0 = w' := by
    rw [hloop, hlast]
    rfl
  unfold focusWindow
  rw [hl, if_neg hw0]
  exact ⟨hloop, rfl, rfl⟩

/-- The restore-all branch is the identity on a state with no minimized
window whose recorded focus is already the back of a non-empty active
list. -/
lemma restoreAllMinimized_fixpoint (t : WMState) (hmin : t.minimizedWindows = [])
    (hkind : t.windowList ≠ []) (hl0 : t.windowList.getLast?.getD 0 ≠ 0)
    (hlast : t.lastFocused = some (t.windowList.getLast?.getD 0)) :
    restoreAllMinimized t = t := by
  unfold restoreAllMinimized
  rw [hmin]
  dsimp only [restoreLoop]
  have h1 : ({ t with minimizedWindows := [] } : WMState) = t := by
    rw [← hmin]
  rw [h1]
  rw [if_neg (by simpa [List.isEmpty_iff] using hkind)]
  unfold focusWindow
  rw [if_neg hl0, ← hlast]

/-- C9: minimizing a focused managed window removes it from the active
sequence and appends it to the minimized list; restore-all then re-adds
every minimized window to the active sequence exactly once (the resulting
sequence has no duplicates and contains every minimized window), clears the
minimized list, and focuses the last restored window — which is the
just-minimized one; running restore-all a second time on the resulting state
changes nothing. -/
theorem c9_minimize_restore (s : WMState) (w : Nat)
    (hw : w ∈ s.windowList) (hnd : s.windowList.Nodup)
    (hdisj : ∀ x ∈ s.minimizedWindows, x ∉ s.windowList) (hmn : s.minimizedWindows.Nodup)
    (h0 : w ≠ 0) (h1 : w ≠ s.runnerWindow) (h2 : w ≠ s.exitConfirmationWindow)
    (h3 : w ≠ s.helpWindow) :
    (minimizeFocused s w).windowList = s.windowList.erase w
    ∧ (minimizeFocused s w).minimizedWindows = s.minimizedWindows ++ [w]
    ∧ (restoreAllMinimized (minimizeFocused s w)).windowList
        = s.windowList.erase w ++ (s.minimizedWindows ++ [w])
    ∧ (restoreAllMinimized (minimizeFocused s w)).windowList.Nodup
    ∧ (∀ m ∈ (minimizeFocused s w).minimizedWindows,
        m ∈ (restoreAllMinimized (minimizeFocused s w)).windowList)
    ∧ (restoreAllMinimized (minimizeFocused s w)).minimizedWindows = []
    ∧ (restoreAllMinimized (minimizeFocused s w)).lastFocused = some w
    ∧ restoreAllMinimized (restoreAllMinimized (minimizeFocused s w))
        = restoreAllMinimized (minimizeFocused s w) := by
  obtain ⟨hsl, hsm⟩ := minimizeFocused_spec s w h0 h1 h2 h3
  have hw_not_min : w ∉ s.minimizedWindows := fun hmem => hdisj w hmem hw
  have hdisj1 : ∀ x ∈ (minimizeFocused s w).minimizedWindows,
      x ∉ (minimizeFocused s w).windowList := by
    rw [hsl, hsm]
    intro x hx
    rcases List.mem_append.mp hx with hx | hx
    · exact fun hmem => hdisj x hx (List.mem_of_mem_erase hmem)
    · rw [List.mem_singleton] at hx
      subst hx
      exact fun hmem => ((List.Nodup.mem_erase_iff hnd).mp hmem).1 rfl
  have hnodup1 : (minimizeFocused s w).minimizedWindows.Nodup := by
    rw [hsm]
    refine List.nodup_append.mpr ⟨hmn, List.nodup_singleton w, ?_⟩
    intro a ha hb
    rw [List.mem_singleton] at hb
    subst hb
    exact hw_not_min ha
  have hlast : ((minimizeFocused s w).windowList
      ++ (minimizeFocused s w).minimizedWindows).getLast? = some w := by
    rw [hsl, hsm, ← List.append_assoc, List.getLast?_concat]
  obtain ⟨hrl, hrm, hrf⟩ :=
    restoreAllMinimized_spec (minimizeFocused s w) w hdisj1 hnodup1 hlast h0
  have hrl2 : (restoreAllMinimized (minimizeFocused s w)).windowList
      = s.windowList.erase w ++ (s.minimizedWindows ++ [w]) := by
    rw [hrl, hsl, hsm]
  refine ⟨hsl, hsm, hrl2, ?_, ?_, hrm, hrf, ?_⟩
  · rw [hrl2]
    refine List.nodup_append.mpr ⟨hnd.erase w, ?_, ?_⟩
    · rw [← hsm]
      exact hnodup1
    · intro a ha hb
      rcases List.mem_append.mp hb with hb | hb
      · exact hdisj a hb (List.mem_of_mem_erase ha)
      · rw [List.mem_singleton] at hb
        subst hb
        exact ((List.Nodup.mem_erase_iff hnd).mp ha).1 rfl
  · intro m hm
    rw [hrl]
    exact List.mem_append.mpr (Or.inr hm)
  · have hglast : (restoreAllMinimized (minimizeFocused s w)).windowList.getLast?.getD 0
        = w := by
      rw [hrl2, ← List.append_assoc, List.getLast?_concat]
      rfl
    refine restoreAllMinimized_fixpoint _ hrm ?_ ?_ ?_
    · rw [hrl2]
      simp
    · rw [hglast]
      exact h0
    · rw [hglast]
      exact hrf

/-- C9 witness: minimizing window 20 from the registry `[10, 20]` with window
30 already minimized, then restoring all, yields the duplicate-free sequence
`[10, 30, 20]` with the minimized set empty and window 20 focused; a second
restore-all changes nothing. -/
theorem c9_witness :
    (minimizeFocused { windowList := [10, 20], minimizedWindows := [30] } 20).windowList = [10]
    ∧ (restoreAllMinimized (minimizeFocused
        { windowList := [10, 20], minimizedWindows := [30] } 20)).windowList = [10, 30, 20]
    ∧ (restoreAllMinimized (minimizeFocused
        { windowList := [10, 20], minimizedWindows := [30] } 20)).minimizedWindows = []
    ∧ (restoreAllMinimized (minimizeFocused
        { windowList := [10, 20], minimizedWindows := [30] } 20)).lastFocused = some 20
    ∧ restoreAllMinimized (restoreAllMinimized (minimizeFocused
        { windowList := [10, 20], minimizedWindows := [30] } 20))
        = restoreAllMinimized (minimizeFocused
            { windowList := [10, 20], minimizedWindows := [30] } 20) := by
  have h := c9_minimize_restore { windowList := [10, 20], minimizedWindows := [30] } 20
    (by decide) (by decide) (by decide) (by decide) (by decide) (by decide) (by decide)
    (by decide)
  obtain ⟨a1, a2, a3, a4, a5, a6, a7, a8⟩ := h
  refine ⟨?_, ?_, a6, a7, a8⟩
  · rw [a1]
    decide
  · rw [a3]
    decide

/-- C10 (counterexample): pressing Enter in the Runner dialog with an EMPTY
input buffer destroys the dialog but delivers NOTHING to the
command-execution collaborator (`WM::executeCommand` drops empty commands
before forking), so the claim that Enter submits the current buffer to the
collaborator is false for the empty buffer. -/
theorem c10_counterexample :
    (handleKeyPress c10State { ks := 65293, alt := false }).spawned = []
    ∧ (handleKeyPress c10State { ks := 65293, alt := false }).isRunnerActive = false := by
  decide

/-- C10 (amended): while the Runner dialog is active (and backed by a
window): a keysym in the printable range 32–126 appends that character to
the buffer and requests a redraw, leaving the dialog active; backspace
removes the last character and redraws when the buffer is non-empty and does
nothing on an empty buffer; Escape destroys the dialog discarding the input;
Enter destroys the dialog, clears the buffer, and submits the buffer to the
command-execution collaborator exactly when it is non-empty — an empty
buffer is dropped without a submission.  In particular opening Runner,
typing `ls` and pressing Enter delivers exactly "ls", destroys the dialog,
and leaves the buffer empty. -/
theorem c10_runner_keys :
    (∀ (s : WMState) (ev : KeyEvent),
      s.isExitConfirmationActive = false → s.isRunnerActive = true → s.runnerWindow ≠ 0 →
      ((32 ≤ ev.ks ∧ ev.ks ≤ 126 →
        (handleKeyPress s ev).runnerInput = s.runnerInput.push (Char.ofNat ev.ks)
        ∧ (handleKeyPress s ev).redrawsRequested = s.redrawsRequested + 1
        ∧ (handleKeyPress s ev).isRunnerActive = true)
      ∧ (ev.ks = 65288 → s.runnerInput ≠ "" →
          (handleKeyPress s ev).runnerInput = s.runnerInput.dropRight 1
          ∧ (handleKeyPress s ev).redrawsRequested = s.redrawsRequested + 1)
      ∧ (ev.ks = 65288 → s.runnerInput = "" → handleKeyPress s ev = s)
      ∧ (ev.ks = 65307 →
          (handleKeyPress s ev).isRunnerActive = false
          ∧ (handleKeyPress s ev).runnerInput = ""
          ∧ (handleKeyPress s ev).spawned = s.spawned)
      ∧ (ev.ks = 65293 →
          (handleKeyPress s ev).isRunnerActive = false
          ∧ (handleKeyPress s ev).runnerInput = ""
          ∧ (handleKeyPress s ev).spawned =
              (if s.runnerInput = "" then s.spawned else s.spawned ++ [s.runnerInput]))))
    ∧ ((runEvents { screenWidth := 1920, screenHeight := 1080 }
          [XEvent.key { ks := 114, alt := true, newId := 50 },
           XEvent.key { ks := 108, alt := false }, XEvent.key { ks := 115, alt := false },
           XEvent.key { ks := 65293, alt := false }]).spawned = ["ls"]
        ∧ (runEvents { screenWidth := 1920, screenHeight := 1080 }
          [XEvent.key { ks := 114, alt := true, newId := 50 },
           XEvent.key { ks := 108, alt := false }, XEvent.key { ks := 115, alt := false },
           XEvent.key { ks := 65293, alt := false }]).isRunnerActive = false
        ∧ (runEvents { screenWidth := 1920, screenHeight := 1080 }
          [XEvent.key { ks := 114, alt := true, newId := 50 },
           XEvent.key { ks := 108, alt := false }, XEvent.key { ks := 115, alt := false },
           XEvent.key { ks := 65293, alt := false }]).runnerInput = "") := by
  constructor
  · intro s ev hE hR hW
    have hroute : handleKeyPress s ev = handleRunnerInput s ev.ks := by
      unfold handleKeyPress
      rw [if_neg (by simp [hE]), if_pos hR]
    refine ⟨?_, ?_, ?_, ?_, ?_⟩
    · rintro ⟨hk1, hk2⟩
      rw [hroute]
      unfold handleRunnerInput
      rw [if_neg (by omega), if_neg (by omega), if_neg (by omega), if_pos ⟨hk1, hk2⟩]
      unfold redrawRunnerDialog
      rw [if_pos ⟨hR, hW⟩]
      exact ⟨rfl, rfl, hR⟩
    · intro hk hne
      rw [hroute]
      unfold handleRunnerInput
      rw [if_neg (by omega), if_neg (by omega), if_pos hk, if_pos hne]
      unfold redrawRunnerDialog
      rw [if_pos ⟨hR, hW⟩]
      exact ⟨rfl, rfl⟩
    · intro hk hempty
      rw [hroute]
      unfold handleRunnerInput
      rw [if_neg (by omega), if_neg (by omega), if_pos hk, if_neg (by simp [hempty])]
    · intro hk
      rw [hroute]
      unfold handleRunnerInput
      rw [if_pos hk]
      unfold destroyRunnerDialog destroyPopUpWindow dialogActive dialogWindow
      rw [if_neg (by simp [hR, hW])]
      dsimp only
      rw [resetFocus_frame]
      dsimp only [setDialog]
      refine ⟨rfl, rfl, ?_⟩
      split <;> rfl
    · intro hk
      rw [hroute]
      unfold handleRunnerInput
      rw [if_neg (by omega), if_pos hk]
      unfold executeCommand
      by_cases hbuf : s.runnerInput = ""
      · rw [if_pos hbuf, if_pos hbuf]
        unfold destroyRunnerDialog destroyPopUpWindow dialogActive dialogWindow
        rw [if_neg (by simp [hR, hW])]
        dsimp only
        rw [resetFocus_frame]
        dsimp only [setDialog]
        refine ⟨rfl, rfl, ?_⟩
        split <;> rfl
      · rw [if_neg hbuf, if_neg hbuf]
        unfold destroyRunnerDialog destroyPopUpWindow dialogActive dialogWindow
        rw [if_neg (by simp [hR, hW])]
        dsimp only
        rw [resetFocus_frame]
        dsimp only [setDialog]
        refine ⟨rfl, rfl, ?_⟩
        split <;> rfl
  · refine ⟨by decide, by decide, by decide⟩

/-- C10 witness: typing the letter `l` (keysym 108) at the concrete
active-Runner state appends it to the buffer and requests a redraw, and the
dialog stays active. -/
theorem c10_witness :
    (handleKeyPress c10State { ks := 108, alt := false }).runnerInput = "l"
    ∧ (handleKeyPress c10State { ks := 108, alt := false }).redrawsRequested = 1
    ∧ (handleKeyPress c10State { ks := 108, alt := false }).isRunnerActive = true := by
  have h := (c10_runner_keys.1 c10State { ks := 108, alt := false } (by decide) (by decide)
    (by decide)).1 (by decide)
  obtain ⟨h1, h2, h3⟩ := h
  refine ⟨?_, ?_, h3⟩
  · rw [h1]
    decide
  · rw [h2]
    decide

/-- C2 witness: a full move gesture (press, motion, release) followed by a
resize press is guarded, and the exclusivity invariant holds after it. -/
theorem c2_witness :
    pressesGuarded
        { windowList := [5], realGeom := [(5, ⟨30, 40, 200, 100⟩)],
          screenWidth := 1920, screenHeight := 1080 }
        [XEvent.button { child := 5, root_x := 10, root_y := 10 },
         XEvent.motion 15 20, XEvent.buttonRelease,
         XEvent.button { child := 5, detail := 3, root_x := 30, root_y := 30 }] = true
    ∧ atMostOneGesture (runEvents
        { windowList := [5], realGeom := [(5, ⟨30, 40, 200, 100⟩)],
          screenWidth := 1920, screenHeight := 1080 }
        [XEvent.button { child := 5, root_x := 10, root_y := 10 },
         XEvent.motion 15 20, XEvent.buttonRelease,
         XEvent.button { child := 5, detail := 3, root_x := 30, root_y := 30 }]) :=
  ⟨by decide, c2_gesture_exclusivity _ _ (by decide) (by decide)⟩

end LWM
